import Mathlib

/-!
Verification of the simulation and scoring engine of the `sim_game`
repository against its natural-language specification.

The TypeScript sources are shallowly embedded: every JavaScript `number`
occurring in the engine is modelled as a rational number `ℚ` (all engine
arithmetic is +, -, *, /, floor, max, min and comparisons, so exact
rational arithmetic matches the intended real-number semantics), mutable
state is threaded explicitly, and the two sources of ambient randomness
(`Math.random()` victim selection and the triage-queue shuffle) are
injected as explicit parameters, as the spec's design notes prescribe.
-/

namespace SimGame

/-! ## Data model (src/core/types.ts) -/

inductive AccountRiskClass where
  | frontline | mid | background
  deriving DecidableEq, Repr

inductive AccountStatus where
  | active | flagged | banned | parked | discarded
  deriving DecidableEq, Repr

structure AccountPersonaTags where
  defi : Bool
  nft : Bool
  gaming : Bool
  normie : Bool
  builder : Bool
  trader : Bool
  femaleAnon : Bool
  devAnon : Bool
  deriving DecidableEq, Repr

structure AccountProfile where
  displayName : String
  handle : String
  bio : String
  location : String
  language : String
  deriving DecidableEq, Repr

structure Account where
  id : String
  ageDays : ℚ
  followers : ℚ
  riskClass : AccountRiskClass
  status : AccountStatus
  persona : AccountPersonaTags
  profile : AccountProfile
  historyFlags : List String
  hiddenBanRiskScore : ℚ
  deriving DecidableEq, Repr

inductive AuthorType where
  | GTE_main | affiliate | team_member
  deriving DecidableEq, Repr

inductive TweetObjective where
  | reach | depth | reputationRepair | partnerSupport
  deriving DecidableEq, Repr

structure TweetLiveMetrics where
  impressions : ℚ
  depthScore : ℚ
  timeSincePostMinutes : ℚ
  likes : ℚ
  retweets : ℚ
  replies : ℚ
  quotes : ℚ
  deriving DecidableEq, Repr

structure SimTweet where
  id : String
  authorType : AuthorType
  topicTags : List String
  objective : TweetObjective
  baseOrganicReach : ℚ
  baseOrganicDepth : ℚ
  liveMetrics : TweetLiveMetrics
  deriving DecidableEq, Repr

inductive EngagementActionType where
  | like | reply | retweet | quote | profileVisit
  deriving DecidableEq, Repr

inductive ReplyTone where
  | highSignalCT | farming | normieQuestion | subtleShill | technicalCritique
  deriving DecidableEq, Repr

structure EngagementAction where
  id : String
  inGameMinute : ℚ
  accountId : String
  tweetId : String
  type : EngagementActionType
  replyTone : Option ReplyTone
  suspicionDelta : ℚ
  reachDelta : ℚ
  depthDelta : ℚ
  deriving DecidableEq, Repr

structure ScheduledEngagement where
  accountId : String
  tweetId : String
  type : EngagementActionType
  replyTone : Option ReplyTone
  scheduledMinute : ℚ
  deriving DecidableEq, Repr

inductive TriageAction where
  | keep | park | discard
  deriving DecidableEq, Repr

structure TriageDecision where
  accountId : String
  action : TriageAction
  newProfile : AccountProfile
  newPersona : AccountPersonaTags
  newRiskClass : AccountRiskClass
  triageTimeSpentMinutes : ℚ
  detectedFlags : List String
  deriving DecidableEq, Repr

inductive RuleSetId where
  | baseline | post_change
  deriving DecidableEq, Repr

structure AlgorithmRuleSet where
  id : RuleSetId
  weightClusterSynchrony : ℚ
  weightRepeatReplyTone : ℚ
  weightGeoLanguageMismatch : ℚ
  weightHighValueAccountOveruse : ℚ
  deriving DecidableEq, Repr

/-- The mutable shared simulation state (src/core/GameState.ts); the
telemetry log keeps only the `(chapterId, type)` part of each event (the
payload is display-only data never read back by the engine, and the
wall-clock timestamp `Date.now()` is outside the simulation). -/
structure GameState where
  accounts : List Account
  tweets : List SimTweet
  engagements : List EngagementAction
  triageDecisions : List TriageDecision
  ruleSets : List AlgorithmRuleSet
  inGameMinutes : ℚ
  suspicionMeter : ℚ
  engagementQueue : List ScheduledEngagement
  systemNotices : List String
  actionIdCounter : ℕ
  telemetryLog : List (String × String)
  deriving DecidableEq, Repr

/-- `logEvent` (src/core/telemetry.ts): appends to the telemetry log. -/
def logEvent (st : GameState) (chapterId : String) (type : String) : GameState :=
  { st with telemetryLog := st.telemetryLog ++ [(chapterId, type)] }

def lookupAccount (st : GameState) (accountId : String) : Option Account :=
  st.accounts.find? (fun a => decide (a.id = accountId))

def lookupTweet (st : GameState) (tweetId : String) : Option SimTweet :=
  st.tweets.find? (fun t => decide (t.id = tweetId))

/-! ## Suspicion engine (src/systems/suspicionEngine.ts) -/

/-- `SUSPICION_THRESHOLDS` -/
def suspicionThresholdWarning : ℚ := 40
def suspicionThresholdElevated : ℚ := 60
def suspicionThresholdCritical : ℚ := 80

/-- `BASE_SUSPICION`: base suspicion values per action type. -/
def baseSuspicionOf : EngagementActionType → ℚ
  | .like => 0.5
  | .reply => 1.5
  | .retweet => 1
  | .quote => 2
  | .profileVisit => 0.2

/-- `CLUSTER_WINDOW`: time window for cluster detection (in-game minutes). -/
def CLUSTER_WINDOW : ℚ := 5

/-- `calculateClusterSynchrony` -/
def calculateClusterSynchrony (tweetId : String) (st : GameState)
    (windowMinutes : ℚ) : ℚ :=
  let currentMinute := st.inGameMinutes
  let recentEngagements := st.engagements.filter (fun e =>
    decide (e.tweetId = tweetId) &&
    decide (currentMinute - windowMinutes ≤ e.inGameMinute) &&
    decide (e.inGameMinute ≤ currentMinute))
  if 10 < recentEngagements.length then 3
  else if 5 < recentEngagements.length then 1.5
  else if 3 < recentEngagements.length then 0.5
  else 0

/-- `calculateRepetitionFactor` -/
def calculateRepetitionFactor (accountId tweetId : String) (st : GameState) : ℚ :=
  match st.tweets.find? (fun t => decide (t.id = tweetId)) with
  | none => 0
  | some tweet =>
    let authorTweets := st.tweets.filter (fun t => decide (t.authorType = tweet.authorType))
    let engagementCount := (st.engagements.filter (fun e =>
      decide (e.accountId = accountId) &&
      authorTweets.any (fun t => decide (t.id = e.tweetId)))).length
    if 10 < engagementCount then 2
    else if 5 < engagementCount then 1
    else if 2 < engagementCount then 0.3
    else 0

/-- `calculatePersonaMismatch` -/
def calculatePersonaMismatch (account : Account) (action : EngagementAction) : ℚ :=
  let m1 : ℚ := if account.persona.normie ∧ action.replyTone = some .technicalCritique then 1.5 else 0
  let m2 : ℚ := if ¬account.persona.defi ∧ action.replyTone = some .highSignalCT then 0.5 else 0
  let m3 : ℚ := if (account.persona.builder ∨ account.persona.devAnon) ∧ action.replyTone = some .farming then 1 else 0
  m1 + m2 + m3

/-- `calculateHighValueOveruse` -/
def calculateHighValueOveruse (accountId : String) (st : GameState)
    (windowMinutes : ℚ) : ℚ :=
  let currentMinute := st.inGameMinutes
  let recentActions := st.engagements.filter (fun e =>
    decide (e.accountId = accountId) &&
    decide (currentMinute - windowMinutes ≤ e.inGameMinute))
  if 5 < recentActions.length then 2
  else if 3 < recentActions.length then 1
  else if 1 < recentActions.length then 0.3
  else 0

/-- `calculateSuspicionDelta`: suspicion delta for an engagement action.
(`BASE_SUSPICION[action.type] || 1` never hits the `|| 1` fallback because
every `EngagementActionType` is a key of `BASE_SUSPICION`.) -/
def calculateSuspicionDelta (action : EngagementAction) (st : GameState)
    (ruleSet : AlgorithmRuleSet) : ℚ :=
  match lookupAccount st action.accountId with
  | none => 0
  | some account =>
    let s0 := baseSuspicionOf action.type
    let s1 := s0 + calculateClusterSynchrony action.tweetId st CLUSTER_WINDOW
                    * ruleSet.weightClusterSynchrony
    let s2 := s1 + calculateRepetitionFactor action.accountId action.tweetId st
                    * ruleSet.weightRepeatReplyTone
    let s3 := s2 + calculatePersonaMismatch account action
                    * ruleSet.weightGeoLanguageMismatch
    let s4 := if account.riskClass = .frontline then
                s3 + calculateHighValueOveruse action.accountId st 30
                      * ruleSet.weightHighValueAccountOveruse
              else s3
    max 0 (s4 * (1 + account.hiddenBanRiskScore * 0.5))

/-- `updateSuspicionMeter`: clamps the meter into [0,100]. -/
def updateSuspicionMeter (st : GameState) (delta : ℚ) : GameState :=
  { st with suspicionMeter := max 0 (min 100 (st.suspicionMeter + delta)) }

/-- `decaySuspicion`: lose 0.5 suspicion per in-game minute, floored at 0. -/
def decaySuspicion (st : GameState) (deltaMinutes : ℚ) : GameState :=
  { st with suspicionMeter := max 0 (st.suspicionMeter - deltaMinutes * 0.5) }

inductive SuspicionLevel where
  | none | warning | elevated | critical
  deriving DecidableEq, Repr

/-- `checkSuspicionThresholds` -/
def checkSuspicionThresholds (st : GameState) : SuspicionLevel :=
  if suspicionThresholdCritical ≤ st.suspicionMeter then .critical
  else if suspicionThresholdElevated ≤ st.suspicionMeter then .elevated
  else if suspicionThresholdWarning ≤ st.suspicionMeter then .warning
  else .none

instance : Inhabited AccountStatus := ⟨.active⟩
instance : Inhabited AccountRiskClass := ⟨.background⟩
instance : Inhabited AccountPersonaTags :=
  ⟨⟨false, false, false, false, false, false, false, false⟩⟩
instance : Inhabited AccountProfile := ⟨⟨"", "", "", "", ""⟩⟩
instance : Inhabited Account := ⟨⟨"", 0, 0, default, default, default, default, [], 0⟩⟩

def statusText : AccountStatus → String
  | .active => "active"
  | .flagged => "flagged"
  | .banned => "banned"
  | .parked => "parked"
  | .discarded => "discarded"

/-- `applySuspicionPenalties`: the `Math.floor(Math.random() * length)`
victim draw is injected as the `pick` parameter (`pick % length` is the
chosen index among the eligible accounts, in account-list order). -/
def applySuspicionPenalties (st : GameState) (level : SuspicionLevel)
    (pick : ℕ) : GameState × List String :=
  match level with
  | .critical =>
    let frontline := st.accounts.enum.filter (fun p =>
      decide (p.2.status = .active) && decide (p.2.riskClass = .frontline))
    if frontline.length = 0 then (st, [])
    else
      let victim := frontline.getD (pick % frontline.length) (0, default)
      ({ st with accounts := st.accounts.set victim.1 { victim.2 with status := .banned } },
       ["CRITICAL: Account @" ++ victim.2.profile.handle ++ " has been banned!"])
  | .elevated =>
    let actives := st.accounts.enum.filter (fun p => decide (p.2.status = .active))
    if actives.length = 0 then (st, [])
    else
      let victim := actives.getD (pick % actives.length) (0, default)
      ({ st with accounts := st.accounts.set victim.1 { victim.2 with status := .flagged } },
       ["WARNING: Account @" ++ victim.2.profile.handle ++ " has been flagged."])
  | .warning =>
    (st, ["Suspicion levels rising. Consider varying your engagement patterns."])
  | .none => (st, [])

/-- `getSuspicionStats` -/
structure SuspicionStats where
  current : ℚ
  avgPerEngagement : ℚ
  totalEngagements : ℕ
  bannedCount : ℕ
  flaggedCount : ℕ
  deriving DecidableEq, Repr

def getSuspicionStats (st : GameState) : SuspicionStats :=
  let totalSuspicion := (st.engagements.map (fun e => e.suspicionDelta)).sum
  { current := st.suspicionMeter
    avgPerEngagement :=
      if 0 < st.engagements.length then totalSuspicion / st.engagements.length else 0
    totalEngagements := st.engagements.length
    bannedCount := (st.accounts.filter (fun a => decide (a.status = .banned))).length
    flaggedCount := (st.accounts.filter (fun a => decide (a.status = .flagged))).length }

/-! ## Engagement system (src/systems/engagementSystem.ts) -/

/-- Time conversion: 1 real second = 0.2 in-game minutes. -/
def REAL_MS_TO_GAME_MINUTES : ℚ := 0.2 / 1000

def MAX_ACTIONS_PER_MINUTE : ℕ := 15
def MAX_ACTIONS_PER_ACCOUNT_PER_HOUR : ℕ := 10

/-- `initEngagementSystem`: resets queue, notices, counters. -/
def initEngagementSystem (st : GameState) : GameState :=
  { st with engagementQueue := []
            systemNotices := []
            actionIdCounter := 0
            inGameMinutes := 0
            suspicionMeter := 0 }

/-- `calculateReachDelta` -/
def calculateReachDelta (action : EngagementAction) (tweet : SimTweet)
    (riskClass : AccountRiskClass) : ℚ :=
  let base : ℚ :=
    match action.type with
    | .like => 15
    | .reply => 60
    | .retweet => 120
    | .quote => 80
    | .profileVisit => 5
  let riskMultiplier : ℚ :=
    match riskClass with
    | .frontline => 3
    | .mid => 1.5
    | .background => 1
  let ageMinutes := tweet.liveMetrics.timeSincePostMinutes
  let timeMultiplier := max 0.3 (1 - ageMinutes / 180)
  (⌊base * riskMultiplier * timeMultiplier⌋ : ℤ)

/-- `calculateDepthDelta` -/
def calculateDepthDelta (action : EngagementAction) : ℚ :=
  match action.type with
  | .reply =>
    match action.replyTone with
    | some .highSignalCT => 5
    | some .technicalCritique => 4
    | some .normieQuestion => 2
    | some .subtleShill => 1
    | some .farming => 0
    | none => 2
  | .quote => 3
  | .retweet => 1
  | _ => 0

/-- Replace the first element satisfying `p` (the JS code mutates the
object returned by `Array.find`). -/
def updateFirst (p : α → Bool) (f : α → α) : List α → List α
  | [] => []
  | x :: xs => if p x then f x :: xs else x :: updateFirst p f xs

/-- One iteration of the `for (const scheduled of actionsToProcess)` loop
body inside `processEngagementsForMinute`; the accumulator carries the
evolving state and the notices gathered so far. -/
def execScheduled (minute : ℤ) (ruleSet : AlgorithmRuleSet)
    (p : GameState × List String) (scheduled : ScheduledEngagement) :
    GameState × List String :=
  let st := p.1
  match lookupAccount st scheduled.accountId, lookupTweet st scheduled.tweetId with
  | none, _ => p
  | _, none => p
  | some account, some tweet =>
    if account.status ≠ .active then
      (st, p.2 ++ ["Action skipped: @" ++ account.profile.handle ++ " is "
                    ++ statusText account.status])
    else
      let counter := st.actionIdCounter + 1
      let action : EngagementAction :=
        { id := "eng_" ++ toString counter
          inGameMinute := (minute : ℚ)
          accountId := scheduled.accountId
          tweetId := scheduled.tweetId
          type := scheduled.type
          replyTone := scheduled.replyTone
          suspicionDelta := 0
          reachDelta := 0
          depthDelta := 0 }
      let st := { st with actionIdCounter := counter }
      let suspicionDelta := calculateSuspicionDelta action st ruleSet
      let reachDelta := calculateReachDelta action tweet account.riskClass
      let depthDelta := calculateDepthDelta action
      let action := { action with suspicionDelta := suspicionDelta
                                  reachDelta := reachDelta
                                  depthDelta := depthDelta }
      let st := updateSuspicionMeter st suspicionDelta
      let touchTweet : SimTweet → SimTweet := fun t =>
        let lm := t.liveMetrics
        let lm := { lm with impressions := lm.impressions + reachDelta
                            depthScore := lm.depthScore + depthDelta }
        let lm :=
          match action.type with
          | .like => { lm with likes := lm.likes + 1 }
          | .retweet => { lm with retweets := lm.retweets + 1 }
          | .reply => { lm with replies := lm.replies + 1 }
          | .quote => { lm with quotes := lm.quotes + 1 }
          | .profileVisit => lm
        { t with liveMetrics := lm }
      let st := { st with
        tweets := updateFirst (fun t => decide (t.id = scheduled.tweetId)) touchTweet st.tweets }
      let st := { st with engagements := st.engagements ++ [action] }
      let st := logEvent st "engagement" "engagement_executed"
      (st, p.2)

structure MinuteResult where
  state : GameState
  processedCount : ℕ
  notices : List String
  deriving DecidableEq, Repr

/-- `processEngagementsForMinute` -/
def processEngagementsForMinute (st : GameState) (minute : ℤ)
    (ruleSet : AlgorithmRuleSet) : MinuteResult :=
  let toProcess := st.engagementQueue.filter (fun e => decide (e.scheduledMinute = (minute : ℚ)))
  let st := { st with engagementQueue :=
    st.engagementQueue.filter (fun e => !decide (e.scheduledMinute = (minute : ℚ))) }
  let notices : List String :=
    if MAX_ACTIONS_PER_MINUTE < toProcess.length then
      ["Too many actions scheduled for minute " ++ toString minute ++ ". Some were dropped."]
    else []
  let actionsToProcess := toProcess.take MAX_ACTIONS_PER_MINUTE
  let p := actionsToProcess.foldl (execScheduled minute ruleSet) (st, notices)
  { state := p.1, processedCount := actionsToProcess.length, notices := p.2 }

/-- `hasAccountEngagedTweet` -/
def hasAccountEngagedTweet (st : GameState) (accountId tweetId : String)
    (type : EngagementActionType) : Bool :=
  st.engagements.any (fun e =>
    decide (e.accountId = accountId) && decide (e.tweetId = tweetId) && decide (e.type = type))
  || st.engagementQueue.any (fun e =>
    decide (e.accountId = accountId) && decide (e.tweetId = tweetId) && decide (e.type = type))

/-- `scheduleEngagement`: returns the boolean result together with the
updated state. -/
def scheduleEngagement (st : GameState) (accountId tweetId : String)
    (type : EngagementActionType) (scheduledMinute : ℚ)
    (replyTone : Option ReplyTone) : Bool × GameState :=
  if hasAccountEngagedTweet st accountId tweetId type then (false, st)
  else
    let accountActionsInHour := (st.engagementQueue.filter (fun e =>
      decide (e.accountId = accountId) &&
      decide (scheduledMinute - 60 ≤ e.scheduledMinute) &&
      decide (e.scheduledMinute ≤ scheduledMinute))).length
    if MAX_ACTIONS_PER_ACCOUNT_PER_HOUR ≤ accountActionsInHour then (false, st)
    else
      (true, { st with engagementQueue := st.engagementQueue ++
        [⟨accountId, tweetId, type, replyTone, scheduledMinute⟩] })

/-- `addSystemNotice`: appends, then drops oldest entries past 20. -/
def addSystemNotice (st : GameState) (notices : List String) : GameState :=
  let l := st.systemNotices ++ notices
  { st with systemNotices := l.drop (l.length - 20) }

/-- `updateTweetMetrics`: ages every tweet and applies organic,
diminishing impression growth. -/
def updateTweetMetrics (st : GameState) (deltaMinutes : ℚ) : GameState :=
  { st with tweets := st.tweets.map (fun tweet =>
      let lm := { tweet.liveMetrics with
        timeSincePostMinutes := tweet.liveMetrics.timeSincePostMinutes + deltaMinutes }
      let ageMinutes := lm.timeSincePostMinutes
      let lm :=
        if ageMinutes < 120 then
          let organicGrowth := (tweet.baseOrganicReach / 120) * deltaMinutes
                                * max 0.1 (1 - ageMinutes / 120)
          { lm with impressions := lm.impressions + (⌊organicGrowth⌋ : ℤ) }
        else lm
      { tweet with liveMetrics := lm }) }

def defaultRuleSet : AlgorithmRuleSet := ⟨.baseline, 1, 1, 1, 1⟩

structure UpdateResult where
  state : GameState
  notices : List String
  processedActions : ℕ
  deriving DecidableEq, Repr

/-- Accumulator step for the `for (let minute = previousMinute + 1; ...)`
loop inside `updateEngagementSystem`. -/
def minuteStep (ruleSet : AlgorithmRuleSet)
    (p : GameState × List String × ℕ) (minute : ℤ) : GameState × List String × ℕ :=
  let r := processEngagementsForMinute p.1 minute ruleSet
  (r.state, p.2.1 ++ r.notices, p.2.2 + r.processedCount)

/-- The once-per-advance-call threshold check at the end of
`updateEngagementSystem` (it runs only when at least one minute boundary
was crossed in this call): checks the bands, applies the single
highest-band penalty and records its notices. -/
def thresholdStage (st : GameState) (crossedBoundary : Bool) (pick : ℕ) :
    GameState × List String :=
  if crossedBoundary then
    let level := checkSuspicionThresholds st
    if level ≠ .none then
      let pens := applySuspicionPenalties st level pick
      (addSystemNotice pens.1 pens.2, pens.2)
    else (st, [])
  else (st, [])

/-- `updateEngagementSystem`: one tick of the shared engagement
simulation. `pick` injects the `Math.random()` draw used by
`applySuspicionPenalties` should a threshold penalty fire this tick. -/
def updateEngagementSystem (st : GameState) (deltaMs : ℚ)
    (ruleSetArg : Option AlgorithmRuleSet) (pick : ℕ) : UpdateResult :=
  let deltaMinutes := deltaMs * REAL_MS_TO_GAME_MINUTES
  let previousMinute : ℤ := ⌊st.inGameMinutes⌋
  let st := { st with inGameMinutes := st.inGameMinutes + deltaMinutes }
  let currentMinute : ℤ := ⌊st.inGameMinutes⌋
  let activeRuleSet := ruleSetArg.getD
    ((st.ruleSets.find? (fun r => decide (r.id = .baseline))).getD
      (st.ruleSets.headD defaultRuleSet))
  let minutes := (List.range (currentMinute - previousMinute).toNat).map
    (fun i => previousMinute + 1 + (i : ℤ))
  let p := minutes.foldl (minuteStep activeRuleSet) (st, [], 0)
  let st := decaySuspicion (updateTweetMetrics p.1 deltaMinutes) deltaMinutes
  let final := thresholdStage st (decide (previousMinute < currentMinute)) pick
  { state := final.1, notices := p.2.1 ++ final.2, processedActions := p.2.2 }

/-- One `advance` call's inputs: the real-time delta, the optional rule
set, and the injected random draw. -/
structure AdvanceInput where
  deltaMs : ℚ
  ruleSet : Option AlgorithmRuleSet
  pick : ℕ
  deriving DecidableEq, Repr

/-- A whole run: fold `updateEngagementSystem` over a list of advance
inputs. -/
def runEngagement (st : GameState) (inputs : List AdvanceInput) : GameState :=
  inputs.foldl (fun s inp => (updateEngagementSystem s inp.deltaMs inp.ruleSet inp.pick).state) st

/-! ## Chapter 3 — adaptive phase (src/systems/chapter3Logic, unnamed part) -/

def RULE_CHANGE_MINUTE : ℚ := 40
def CHAPTER_DURATION : ℚ := 120
def MAX_COUNTERMEASURE_UPDATES : ℕ := 3

inductive Chapter3Phase where
  | baseline | post_change
  deriving DecidableEq, Repr

structure CountermeasureSettings where
  maxActionsPerAccountPerHour : ℚ
  minDelayBetweenActions : ℚ
  likeRatio : ℚ
  replyRatio : ℚ
  retweetRatio : ℚ
  silentBrowsingCount : ℚ
  deriving DecidableEq, Repr

structure PhaseMetrics where
  suspicionPerEngagement : ℚ
  bansPerEngagement : ℚ
  avgReach : ℚ
  totalEngagements : ℕ
  deriving DecidableEq, Repr

structure Chapter3State where
  currentPhase : Chapter3Phase
  countermeasureUpdatesUsed : ℕ
  ruleChangeTriggered : Bool
  ruleChangeTime : ℚ
  firstCountermeasureTime : Option ℚ
  baselineMetrics : PhaseMetrics
  postChangeMetrics : PhaseMetrics
  currentSettings : CountermeasureSettings
  deriving DecidableEq, Repr

/-- `createDefaultState` -/
def createDefaultState : Chapter3State :=
  { currentPhase := .baseline
    countermeasureUpdatesUsed := 0
    ruleChangeTriggered := false
    ruleChangeTime := 0
    firstCountermeasureTime := none
    baselineMetrics := ⟨0, 0, 0, 0⟩
    postChangeMetrics := ⟨0, 0, 0, 0⟩
    currentSettings :=
      { maxActionsPerAccountPerHour := 10
        minDelayBetweenActions := 2
        likeRatio := 0.5
        replyRatio := 0.3
        retweetRatio := 0.2
        silentBrowsingCount := 0 } }

/-- `initChapter3` -/
def initChapter3 (st : GameState) : GameState × Chapter3State :=
  (logEvent (initEngagementSystem st) "chapter3" "chapter_start", createDefaultState)

/-- `shouldTriggerRuleChange` -/
def shouldTriggerRuleChange (st : GameState) (c3 : Chapter3State) : Bool :=
  decide (RULE_CHANGE_MINUTE ≤ st.inGameMinutes) && !c3.ruleChangeTriggered

/-- `captureBaselineMetrics` -/
def captureBaselineMetrics (st : GameState) (c3 : Chapter3State) : Chapter3State :=
  let stats := getSuspicionStats st
  let totalReach := (st.tweets.map (fun t => t.liveMetrics.impressions)).sum
  { c3 with baselineMetrics :=
    { suspicionPerEngagement := stats.avgPerEngagement
      bansPerEngagement :=
        if 0 < stats.totalEngagements then
          (stats.bannedCount : ℚ) / stats.totalEngagements else 0
      avgReach := if 0 < st.tweets.length then totalReach / st.tweets.length else 0
      totalEngagements := stats.totalEngagements } }

/-- `applyRuleChange`: one-time, one-directional swap to the
post-change rule set. -/
def applyRuleChange (st : GameState) (c3 : Chapter3State) : GameState × Chapter3State :=
  if c3.ruleChangeTriggered then (st, c3)
  else
    let c3 := captureBaselineMetrics st c3
    let c3 := { c3 with currentPhase := .post_change
                        ruleChangeTriggered := true
                        ruleChangeTime := st.inGameMinutes }
    (logEvent st "chapter3" "rule_change", c3)

/-- `capturePostChangeMetrics` -/
def capturePostChangeMetrics (st : GameState) (c3 : Chapter3State) : Chapter3State :=
  let stats := getSuspicionStats st
  let totalReach := (st.tweets.map (fun t => t.liveMetrics.impressions)).sum
  let postChangeEngagements := st.engagements.filter
    (fun e => decide (RULE_CHANGE_MINUTE ≤ e.inGameMinute))
  let postSuspicion := (postChangeEngagements.map (fun e => e.suspicionDelta)).sum
  { c3 with postChangeMetrics :=
    { suspicionPerEngagement :=
        if 0 < postChangeEngagements.length then
          postSuspicion / postChangeEngagements.length else 0
      bansPerEngagement :=
        if 0 < postChangeEngagements.length then
          (stats.bannedCount : ℚ) / postChangeEngagements.length else 0
      avgReach := if 0 < st.tweets.length then totalReach / st.tweets.length else 0
      totalEngagements := postChangeEngagements.length } }

/-- `getCurrentRuleSet` -/
def getCurrentRuleSet (st : GameState) (c3 : Chapter3State) : AlgorithmRuleSet :=
  let id : RuleSetId := match c3.currentPhase with
    | .baseline => .baseline
    | .post_change => .post_change
  (st.ruleSets.find? (fun r => decide (r.id = id))).getD (st.ruleSets.headD defaultRuleSet)

/-- A `Partial<CountermeasureSettings>` override record. -/
structure CountermeasureUpdate where
  maxActionsPerAccountPerHour : Option ℚ := none
  minDelayBetweenActions : Option ℚ := none
  likeRatio : Option ℚ := none
  replyRatio : Option ℚ := none
  retweetRatio : Option ℚ := none
  silentBrowsingCount : Option ℚ := none
  deriving DecidableEq, Repr

def mergeSettings (s : CountermeasureSettings) (u : CountermeasureUpdate) :
    CountermeasureSettings :=
  { maxActionsPerAccountPerHour := u.maxActionsPerAccountPerHour.getD s.maxActionsPerAccountPerHour
    minDelayBetweenActions := u.minDelayBetweenActions.getD s.minDelayBetweenActions
    likeRatio := u.likeRatio.getD s.likeRatio
    replyRatio := u.replyRatio.getD s.replyRatio
    retweetRatio := u.retweetRatio.getD s.retweetRatio
    silentBrowsingCount := u.silentBrowsingCount.getD s.silentBrowsingCount }

/-- `applyCountermeasure` -/
def applyCountermeasure (st : GameState) (c3 : Chapter3State)
    (settings : CountermeasureUpdate) : Bool × GameState × Chapter3State :=
  if MAX_COUNTERMEASURE_UPDATES ≤ c3.countermeasureUpdatesUsed then (false, st, c3)
  else
    let c3 := { c3 with countermeasureUpdatesUsed := c3.countermeasureUpdatesUsed + 1
                        currentSettings := mergeSettings c3.currentSettings settings }
    let c3 :=
      if c3.firstCountermeasureTime = none ∧ c3.ruleChangeTriggered then
        { c3 with firstCountermeasureTime := some st.inGameMinutes }
      else c3
    (true, logEvent st "chapter3" "countermeasure_applied", c3)

/-- `updateChapter3`: one tick using the phase-appropriate rule set. -/
def updateChapter3 (st : GameState) (c3 : Chapter3State) (deltaMs : ℚ)
    (pick : ℕ) : UpdateResult :=
  updateEngagementSystem st deltaMs (some (getCurrentRuleSet st c3)) pick

/-- One operation of the chapter-3 run loop, as driven by
`Chapter3Scene.update` and the countermeasure panel. -/
inductive Chapter3Op where
  | tick (deltaMs : ℚ) (pick : ℕ)
  | countermeasure (settings : CountermeasureUpdate)
  | capturePost
  deriving DecidableEq, Repr

/-- One step of the chapter-3 run. A `tick` mirrors
`Chapter3Scene.update`: first the rule-change check
(`if (shouldTriggerRuleChange(state)) applyRuleChange(state)`), then
`updateChapter3`. -/
def chapter3Step (p : GameState × Chapter3State) : Chapter3Op → GameState × Chapter3State
  | .tick deltaMs pick =>
    let p := if shouldTriggerRuleChange p.1 p.2 then applyRuleChange p.1 p.2 else p
    ((updateChapter3 p.1 p.2 deltaMs pick).state, p.2)
  | .countermeasure settings =>
    let r := applyCountermeasure p.1 p.2 settings
    (r.2.1, r.2.2)
  | .capturePost => (p.1, capturePostChangeMetrics p.1 p.2)

def chapter3Run (p : GameState × Chapter3State) (ops : List Chapter3Op) :
    GameState × Chapter3State :=
  ops.foldl chapter3Step p

/-! ## Chapter 2 — triage phase (src/systems/chapter2Logic, unnamed part) -/

inductive TriageCostKind where
  | openAccountDetail
  | changeProfileField
  | togglePersonaTag
  | revealHistoryFlag
  | makeTriageDecision
  | changeRiskClass
  deriving DecidableEq, Repr

/-- `TIME_COSTS`: fixed per-action time costs (in-game minutes). -/
def TIME_COSTS : TriageCostKind → ℚ
  | .openAccountDetail => 1
  | .changeProfileField => 0.5
  | .togglePersonaTag => 0.5
  | .revealHistoryFlag => 0.75
  | .makeTriageDecision => 0.5
  | .changeRiskClass => 0.5

/-- The module-level chapter-2 variables (`timeBudget`,
`currentAccountIndex`, `triageQueue`, `processedAccounts`) gathered into
an explicit record, as the spec's design notes prescribe. -/
structure TriageState where
  timeBudget : ℚ
  currentAccountIndex : ℕ
  triageQueue : List Account
  processedAccounts : List String
  deriving DecidableEq, Repr

/-- `initChapter2`: the ambient random shuffle of the queue is injected
as the `shuffle` parameter. -/
def initChapter2 (st : GameState) (shuffle : List Account → List Account) :
    GameState × TriageState :=
  let queue := shuffle (st.accounts.filter (fun a =>
    decide (a.status = .active) || decide (a.status = .flagged)))
  (logEvent st "chapter2" "chapter_start",
   { timeBudget := 60, currentAccountIndex := 0, triageQueue := queue,
     processedAccounts := [] })

/-- `applyTimeCost`: refuses (no deduction) if the budget does not cover
the cost. -/
def applyTimeCost (ts : TriageState) (actionType : TriageCostKind) : Bool × TriageState :=
  let cost := TIME_COSTS actionType
  if ts.timeBudget < cost then (false, ts)
  else (true, { ts with timeBudget := ts.timeBudget - cost })

/-- `isTimeExhausted` -/
def isTimeExhausted (ts : TriageState) : Bool := decide (ts.timeBudget ≤ 0)

/-- `openAccountDetail` -/
def openAccountDetail (ts : TriageState) : Bool × TriageState :=
  applyTimeCost ts .openAccountDetail

/-- `revealHistoryFlag`: note that the source debits the cost *before*
checking the index, so an out-of-range index still consumes budget. -/
def revealHistoryFlag (ts : TriageState) (account : Account) (flagIndex : ℕ) :
    Option String × TriageState :=
  match applyTimeCost ts .revealHistoryFlag with
  | (false, ts) => (none, ts)
  | (true, ts) =>
    if account.historyFlags.length ≤ flagIndex then (none, ts)
    else (some (account.historyFlags.getD flagIndex ""), ts)

inductive ProfileField where
  | displayName | handle | bio | location | language
  deriving DecidableEq, Repr

def setProfileField (p : AccountProfile) : ProfileField → String → AccountProfile
  | .displayName, v => { p with displayName := v }
  | .handle, v => { p with handle := v }
  | .bio, v => { p with bio := v }
  | .location, v => { p with location := v }
  | .language, v => { p with language := v }

/-- `updateProfileField`: on success returns the mutated account. -/
def updateProfileField (ts : TriageState) (account : Account)
    (field : ProfileField) (value : String) : Bool × TriageState × Account :=
  match applyTimeCost ts .changeProfileField with
  | (false, ts) => (false, ts, account)
  | (true, ts) => (true, ts, { account with profile := setProfileField account.profile field value })

inductive PersonaTag where
  | defi | nft | gaming | normie | builder | trader | femaleAnon | devAnon
  deriving DecidableEq, Repr

def togglePersona (p : AccountPersonaTags) : PersonaTag → AccountPersonaTags
  | .defi => { p with defi := !p.defi }
  | .nft => { p with nft := !p.nft }
  | .gaming => { p with gaming := !p.gaming }
  | .normie => { p with normie := !p.normie }
  | .builder => { p with builder := !p.builder }
  | .trader => { p with trader := !p.trader }
  | .femaleAnon => { p with femaleAnon := !p.femaleAnon }
  | .devAnon => { p with devAnon := !p.devAnon }

/-- `togglePersonaTag` -/
def togglePersonaTag (ts : TriageState) (account : Account) (tag : PersonaTag) :
    Bool × TriageState × Account :=
  match applyTimeCost ts .togglePersonaTag with
  | (false, ts) => (false, ts, account)
  | (true, ts) => (true, ts, { account with persona := togglePersona account.persona tag })

/-- `changeRiskClass` -/
def changeRiskClass (ts : TriageState) (account : Account)
    (newRiskClass : AccountRiskClass) : Bool × TriageState × Account :=
  match applyTimeCost ts .changeRiskClass with
  | (false, ts) => (false, ts, account)
  | (true, ts) => (true, ts, { account with riskClass := newRiskClass })

def triageStatusOf : TriageAction → AccountStatus
  | .keep => .active
  | .park => .parked
  | .discard => .discarded

/-- `makeTriageDecision`: the cost is debited first; an unknown account
id then aborts with `false` (the cost stays deducted). -/
def makeTriageDecision (st : GameState) (ts : TriageState) (accountId : String)
    (action : TriageAction) (detectedFlags : List String) (timeSpent : ℚ) :
    Bool × GameState × TriageState :=
  match applyTimeCost ts .makeTriageDecision with
  | (false, ts) => (false, st, ts)
  | (true, ts) =>
    match lookupAccount st accountId with
    | none => (false, st, ts)
    | some account =>
      let account := { account with status := triageStatusOf action }
      let newAccounts :=
        updateFirst (fun a => decide (a.id = accountId)) (fun _ => account) st.accounts
      let st := { st with accounts := newAccounts }
      let decision : TriageDecision :=
        { accountId := accountId
          action := action
          newProfile := account.profile
          newPersona := account.persona
          newRiskClass := account.riskClass
          triageTimeSpentMinutes := timeSpent
          detectedFlags := detectedFlags }
      let st := { st with triageDecisions := st.triageDecisions ++ [decision] }
      let ts := { ts with
        processedAccounts :=
          if accountId ∈ ts.processedAccounts then ts.processedAccounts
          else ts.processedAccounts ++ [accountId]
        currentAccountIndex := ts.currentAccountIndex + 1 }
      (true, logEvent st "chapter2" "triage_decision", ts)

/-- `skipAccount`: advances the pointer, no cost, no decision. -/
def skipAccount (ts : TriageState) : TriageState :=
  { ts with currentAccountIndex := ts.currentAccountIndex + 1 }

/-- One triage-phase operation, as driven by `Chapter2Scene`. -/
inductive TriageOp where
  | openDetail
  | reveal (account : Account) (i : ℕ)
  | editProfile (account : Account) (field : ProfileField) (value : String)
  | toggleTag (account : Account) (tag : PersonaTag)
  | setRisk (account : Account) (rc : AccountRiskClass)
  | makeDecision (accountId : String) (action : TriageAction)
      (detectedFlags : List String) (timeSpent : ℚ)
  | skip
  deriving DecidableEq, Repr

def triageStep (p : GameState × TriageState) : TriageOp → GameState × TriageState
  | .openDetail => (p.1, (openAccountDetail p.2).2)
  | .reveal account i => (p.1, (revealHistoryFlag p.2 account i).2)
  | .editProfile account field value => (p.1, (updateProfileField p.2 account field value).2.1)
  | .toggleTag account tag => (p.1, (togglePersonaTag p.2 account tag).2.1)
  | .setRisk account rc => (p.1, (changeRiskClass p.2 account rc).2.1)
  | .makeDecision accountId action detectedFlags timeSpent =>
    let r := makeTriageDecision p.1 p.2 accountId action detectedFlags timeSpent
    (r.2.1, r.2.2)
  | .skip => (p.1, skipAccount p.2)

def triageRun (p : GameState × TriageState) (ops : List TriageOp) :
    GameState × TriageState :=
  ops.foldl triageStep p

/-! ## Metrics & scoring (src/core/metrics.ts)

Only the fields of `GameRun` that the five scoring functions read are
modelled (`runId`, the timestamps, `ruleSets`, `chapterMetrics` and the
output slot `derivedScores` are never consulted by them). -/

structure GameRun where
  accounts : List Account
  tweets : List SimTweet
  engagements : List EngagementAction
  triageDecisions : List TriageDecision
  deriving DecidableEq, Repr

structure DerivedScores where
  patternRealism : ℚ
  riskDiscipline : ℚ
  strategicSensitivity : ℚ
  operationalPrioritization : ℚ
  autonomySignals : ℚ
  deriving DecidableEq, Repr

/-- `Math.max(0, Math.min(100, score))`, the final clamp of every score. -/
def clampScore (x : ℚ) : ℚ := max 0 (min 100 x)

/-- `computePatternRealism`. The JS coefficient-of-variation branches
`cv < 0.5` and `cv > 1.5` with `cv = sqrt(variance)/avgUsage` are encoded
by squaring: in this branch `usageCounts` is nonempty with every count
at least 1, so `avgUsage > 0` and the comparisons are equivalent to
`variance < (0.5*avgUsage)^2` and `variance > (1.5*avgUsage)^2`. -/
def computePatternRealism (run : GameRun) : ℚ :=
  let score : ℚ := 70
  let ids := (run.engagements.map (fun e => e.accountId)).dedup
  let usageCounts := ids.map (fun a =>
    (run.engagements.filter (fun e => decide (e.accountId = a))).length)
  let score :=
    if 0 < usageCounts.length then
      let maxUsage : ℚ := ((usageCounts.foldl max 0 : ℕ) : ℚ)
      let avgUsage : ℚ := ((usageCounts.map (fun n => (n : ℚ))).sum) / usageCounts.length
      let score :=
        if avgUsage * 3 < maxUsage then score - 15
        else if avgUsage * 2 < maxUsage then score - 8
        else score
      let variance := ((usageCounts.map (fun u => ((u : ℚ) - avgUsage) ^ 2)).sum) / usageCounts.length
      if variance < (0.5 * avgUsage) ^ 2 then score + 10
      else if (1.5 * avgUsage) ^ 2 < variance then score - 10
      else score
    else score
  let minutes := (run.engagements.map (fun e => e.inGameMinute)).dedup
  let spikes := (minutes.filter (fun m =>
    10 < (run.engagements.filter (fun e => decide (e.inGameMinute = m))).length)).length
  let score :=
    if 5 < spikes then score - 15
    else if 2 < spikes then score - 8
    else score
  let avgSuspicion : ℚ :=
    if 0 < run.engagements.length then
      ((run.engagements.map (fun e => e.suspicionDelta)).sum) / run.engagements.length
    else 0
  let score :=
    if avgSuspicion < 1 then score + 10
    else if 3 < avgSuspicion then score - 15
    else score
  clampScore score

/-- `computeRiskDiscipline`. When no decision is a `keep`, the JS ratio
`conservativeAssignments / keptDecisions.length` is `NaN` (0/0) and the
`> 0.3` comparison is false; in `ℚ` the same division is `0`, so the
branch agrees. -/
def computeRiskDiscipline (run : GameRun) : ℚ :=
  let score : ℚ := 70
  let bannedFrontline := (run.accounts.filter (fun a =>
    decide (a.status = .banned) && decide (a.riskClass = .frontline))).length
  let totalFrontline := (run.accounts.filter (fun a =>
    decide (a.riskClass = .frontline))).length
  let score :=
    if 0 < totalFrontline then
      let frontlineLossRate : ℚ := (bannedFrontline : ℚ) / totalFrontline
      if 0.3 < frontlineLossRate then score - 25
      else if 0.15 < frontlineLossRate then score - 15
      else if frontlineLossRate = 0 then score + 10
      else score
    else score
  let score :=
    if 0 < run.triageDecisions.length then
      let flagsDetected := (run.triageDecisions.map (fun d => d.detectedFlags.length)).sum
      let totalAccounts := run.triageDecisions.length
      let score :=
        if (0.5 : ℚ) < (flagsDetected : ℚ) / totalAccounts then score + 10 else score
      let keptDecisions := run.triageDecisions.filter (fun d => decide (d.action = .keep))
      let conservativeAssignments := (keptDecisions.filter (fun d =>
        decide (d.newRiskClass = .background))).length
      if (0.3 : ℚ) < (conservativeAssignments : ℚ) / keptDecisions.length then score + 5
      else score
    else score
  let activeAccounts := run.accounts.filter (fun a => decide (a.status = .active))
  let score :=
    if 0 < activeAccounts.length then
      let avgBanRisk := ((activeAccounts.map (fun a => a.hiddenBanRiskScore)).sum)
                          / activeAccounts.length
      if 0.5 < avgBanRisk then score - 15
      else if avgBanRisk < 0.2 then score + 10
      else score
    else score
  clampScore score

/-- `computeStrategicSensitivity` -/
def computeStrategicSensitivity (run : GameRun) : ℚ :=
  let score : ℚ := 60
  let firstHalf := run.engagements.filter (fun e => decide (e.inGameMinute < 60))
  let secondHalf := run.engagements.filter (fun e => decide (60 ≤ e.inGameMinute))
  let score :=
    if 0 < firstHalf.length ∧ 0 < secondHalf.length then
      let firstHalfSuspicion := ((firstHalf.map (fun e => e.suspicionDelta)).sum) / firstHalf.length
      let secondHalfSuspicion := ((secondHalf.map (fun e => e.suspicionDelta)).sum) / secondHalf.length
      if secondHalfSuspicion < firstHalfSuspicion * 0.7 then score + 20
      else if secondHalfSuspicion < firstHalfSuspicion then score + 10
      else if firstHalfSuspicion * 1.3 < secondHalfSuspicion then score - 15
      else score
    else score
  let actionTypes := (run.engagements.map (fun e => e.type)).dedup
  let score :=
    if 4 ≤ actionTypes.length then score + 10
    else if actionTypes.length ≤ 1 then score - 10
    else score
  clampScore score

/-- `computeOperationalPrioritization` -/
def computeOperationalPrioritization (run : GameRun) : ℚ :=
  let score : ℚ := 65
  let mainTweets := run.tweets.filter (fun t => decide (t.authorType = .GTE_main))
  let otherTweets := run.tweets.filter (fun t => !decide (t.authorType = .GTE_main))
  let score :=
    if 0 < mainTweets.length ∧ 0 < otherTweets.length then
      let mainEngagements := (run.engagements.filter (fun e =>
        mainTweets.any (fun t => decide (t.id = e.tweetId)))).length
      let otherEngagements := (run.engagements.filter (fun e =>
        otherTweets.any (fun t => decide (t.id = e.tweetId)))).length
      let mainPerTweet : ℚ := (mainEngagements : ℚ) / mainTweets.length
      let otherPerTweet : ℚ :=
        if 0 < otherTweets.length then (otherEngagements : ℚ) / otherTweets.length else 0
      if otherPerTweet * 1.5 < mainPerTweet then score + 15
      else if mainPerTweet < otherPerTweet then score - 10
      else score
    else score
  let reachTweets := run.tweets.filter (fun t => decide (t.objective = .reach))
  let reachEngagements := (run.engagements.filter (fun e =>
    reachTweets.any (fun t => decide (t.id = e.tweetId)))).length
  let score :=
    if 0 < reachTweets.length then
      let reachPerTweet : ℚ := (reachEngagements : ℚ) / reachTweets.length
      let avgPerTweet : ℚ :=
        if 0 < run.tweets.length then (run.engagements.length : ℚ) / run.tweets.length else 0
      if avgPerTweet * 1.3 < reachPerTweet then score + 10 else score
    else score
  let score :=
    if 0 < run.triageDecisions.length then
      let avgTime := ((run.triageDecisions.map (fun d => d.triageTimeSpentMinutes)).sum)
                       / run.triageDecisions.length
      if avgTime < 1 then score + 5
      else if 3 < avgTime then score - 10
      else score
    else score
  clampScore score

/-- `computeAutonomySignals`. With no engagements the JS repetition
ratio `engagements.length / uniqueAccountTweetPairs.size` is `NaN` (0/0)
and both comparisons are false; the explicit emptiness guard reproduces
that (the pair set is empty exactly when the engagement log is). -/
def computeAutonomySignals (run : GameRun) : ℚ :=
  let score : ℚ := 50
  let score :=
    if 100 < run.engagements.length then score + 15
    else if 50 < run.engagements.length then score + 10
    else if run.engagements.length < 20 then score - 15
    else score
  let score :=
    if 25 < run.triageDecisions.length then score + 10
    else if run.triageDecisions.length < 10 then score - 10
    else score
  let replyTones := (run.engagements.filterMap (fun e => e.replyTone)).dedup
  let score := if 3 ≤ replyTones.length then score + 10 else score
  let uniqueAccountTweetPairs := (run.engagements.map (fun e => (e.accountId, e.tweetId))).dedup
  let score :=
    if uniqueAccountTweetPairs.length = 0 then score
    else
      let repetitionRatio : ℚ := (run.engagements.length : ℚ) / uniqueAccountTweetPairs.length
      if 2 < repetitionRatio then score - 10
      else if repetitionRatio < 1.2 then score + 10
      else score
  clampScore score

/-- `computeDerivedScores` -/
def computeDerivedScores (run : GameRun) : DerivedScores :=
  { patternRealism := computePatternRealism run
    riskDiscipline := computeRiskDiscipline run
    strategicSensitivity := computeStrategicSensitivity run
    operationalPrioritization := computeOperationalPrioritization run
    autonomySignals := computeAutonomySignals run }

/-! ## Spec-side detection formula (§4.3 of the spec), for the
refinement claim about `calculateSuspicionDelta` -/

/-- The spec's three-breakpoint penalty shape for cluster synchrony:
"0 / 0.5 / 1.5 / 3.0 for ≤3 / >3 / >5 / >10 recent actions". -/
def breakpointPenaltySpec (n : ℕ) : ℚ :=
  if 10 < n then 3
  else if 5 < n then 1.5
  else if 3 < n then 0.5
  else 0

/-- Spec-side cluster synchrony: "counts executed actions on the same
content item within a trailing 5-minute window". -/
def clusterSynchronySpec (tweetId : String) (st : GameState) : ℚ :=
  breakpointPenaltySpec ((st.engagements.filter (fun e =>
    decide (e.tweetId = tweetId) &&
    decide (st.inGameMinutes - 5 ≤ e.inGameMinute) &&
    decide (e.inGameMinute ≤ st.inGameMinutes))).length)

/-- The detection-delta formula exactly as the spec words it: base value
keyed by action type, plus the four weighted factors (the high-value
overuse factor "applies only to the top risk tier"), the combined sum
scaled by `(1 + hiddenBanRisk × 0.5)` and floored at zero. An action
whose account id is unknown contributes 0 (the missing-id no-op of §6). -/
def suspicionDeltaSpec (action : EngagementAction) (st : GameState)
    (ruleSet : AlgorithmRuleSet) : ℚ :=
  match lookupAccount st action.accountId with
  | none => 0
  | some account =>
    let factorSum :=
      clusterSynchronySpec action.tweetId st * ruleSet.weightClusterSynchrony
      + calculateRepetitionFactor action.accountId action.tweetId st
          * ruleSet.weightRepeatReplyTone
      + calculatePersonaMismatch account action * ruleSet.weightGeoLanguageMismatch
      + (if account.riskClass = .frontline then
           calculateHighValueOveruse action.accountId st 30
             * ruleSet.weightHighValueAccountOveruse
         else 0)
    max 0 ((baseSuspicionOf action.type + factorSum)
            * (1 + account.hiddenBanRiskScore * 0.5))

/-! ## Concrete populations used by witnesses and counterexamples -/

def mkAccount (id handle : String) (rc : AccountRiskClass) (status : AccountStatus)
    (flags : List String) : Account :=
  { id := id, ageDays := 100, followers := 1000, riskClass := rc, status := status,
    persona := default,
    profile := { displayName := id, handle := handle, bio := "", location := "US",
                 language := "en" },
    historyFlags := flags, hiddenBanRiskScore := 0 }

def mkTweet (id : String) : SimTweet :=
  { id := id, authorType := .GTE_main, topicTags := [], objective := .reach,
    baseOrganicReach := 100, baseOrganicDepth := 10,
    liveMetrics := ⟨0, 0, 0, 0, 0, 0, 0⟩ }

def baselineRS : AlgorithmRuleSet := ⟨.baseline, 1, 1, 1, 1⟩
def postChangeRS : AlgorithmRuleSet := ⟨.post_change, 2, 1.5, 1.8, 2⟩

def emptyState : GameState :=
  { accounts := [], tweets := [], engagements := [], triageDecisions := [],
    ruleSets := [baselineRS, postChangeRS], inGameMinutes := 0, suspicionMeter := 0,
    engagementQueue := [], systemNotices := [], actionIdCounter := 0, telemetryLog := [] }

/-- A state with one active account, one tweet and an empty queue. -/
def oneAccountState : GameState :=
  { emptyState with
    accounts := [mkAccount "a1" "alpha" .background .active []]
    tweets := [mkTweet "t1"] }

/-- Two active frontline accounts, detection meter pinned at 100,
nothing queued: used to exercise the threshold-penalty path. -/
def twoFrontlineState : GameState :=
  { emptyState with
    accounts := [mkAccount "a1" "alpha" .frontline .active [],
                 mkAccount "a2" "beta" .frontline .active []]
    suspicionMeter := 100 }

/-- A queue entry whose account id matches nothing in the state. -/
def ghostQueueState : GameState :=
  { emptyState with
    engagementQueue := [⟨"ghost", "t404", .like, none, 1⟩] }

/-- A banned account with an action still pending for it at minute 1. -/
def bannedQueueState : GameState :=
  { emptyState with
    accounts := [mkAccount "a1" "alpha" .background .banned []]
    tweets := [mkTweet "t1"]
    engagementQueue := [⟨"a1", "t1", .like, none, 1⟩] }

/-! ## Helper lemmas -/

theorem foldl_preserves {α β : Type} (f : β → α → β) (Inv : β → Prop)
    (hstep : ∀ b a, Inv b → Inv (f b a)) :
    ∀ (l : List α) (b : β), Inv b → Inv (l.foldl f b) := by
  intro l
  induction l with
  | nil => intro b hb; exact hb
  | cons a l ih => intro b hb; exact ih _ (hstep b a hb)

theorem clampScore_nonneg (x : ℚ) : 0 ≤ clampScore x := le_max_left 0 _

theorem clampScore_le_100 (x : ℚ) : clampScore x ≤ 100 :=
  max_le (by norm_num) (min_le_left _ _)

/-! ## Claim theorems -/

/-- C3: `calculateSuspicionDelta` is a pure function of its three
arguments (it is a Lean function, hence deterministic by construction),
equals the spec's formula — base value per action type, plus the four
behavioral factors each multiplied by its rule-set weight (the cluster
factor using the trailing 5-minute window with flat penalties
0 / 0.5 / 1.5 / 3.0 for counts ≤3 / >3 / >5 / >10), the sum scaled by
`(1 + hiddenBanRisk × 0.5)` and floored at zero — and is always ≥ 0. -/
theorem calculateSuspicionDelta_matches_spec (action : EngagementAction)
    (st : GameState) (ruleSet : AlgorithmRuleSet) :
    calculateSuspicionDelta action st ruleSet = suspicionDeltaSpec action st ruleSet ∧
    0 ≤ calculateSuspicionDelta action st ruleSet := by
  have hcluster : calculateClusterSynchrony action.tweetId st CLUSTER_WINDOW
      = clusterSynchronySpec action.tweetId st := by
    unfold calculateClusterSynchrony clusterSynchronySpec breakpointPenaltySpec CLUSTER_WINDOW
    rfl
  unfold calculateSuspicionDelta suspicionDeltaSpec
  cases lookupAccount st action.accountId with
  | none => exact ⟨rfl, le_refl 0⟩
  | some account =>
    refine ⟨?_, le_max_left 0 _⟩
    simp only [hcluster]
    congr 1
    split_ifs <;> ring

/-- C6: for every run snapshot — in particular one with empty action,
triage, account or tweet lists — each of the five derived scores
computed by `computeDerivedScores` lies in [0, 100]. -/
theorem derivedScores_in_range (run : GameRun) :
    (0 ≤ (computeDerivedScores run).patternRealism ∧
      (computeDerivedScores run).patternRealism ≤ 100) ∧
    (0 ≤ (computeDerivedScores run).riskDiscipline ∧
      (computeDerivedScores run).riskDiscipline ≤ 100) ∧
    (0 ≤ (computeDerivedScores run).strategicSensitivity ∧
      (computeDerivedScores run).strategicSensitivity ≤ 100) ∧
    (0 ≤ (computeDerivedScores run).operationalPrioritization ∧
      (computeDerivedScores run).operationalPrioritization ≤ 100) ∧
    (0 ≤ (computeDerivedScores run).autonomySignals ∧
      (computeDerivedScores run).autonomySignals ≤ 100) := by
  unfold computeDerivedScores computePatternRealism computeRiskDiscipline
    computeStrategicSensitivity computeOperationalPrioritization computeAutonomySignals
  exact ⟨⟨clampScore_nonneg _, clampScore_le_100 _⟩,
         ⟨clampScore_nonneg _, clampScore_le_100 _⟩,
         ⟨clampScore_nonneg _, clampScore_le_100 _⟩,
         ⟨clampScore_nonneg _, clampScore_le_100 _⟩,
         ⟨clampScore_nonneg _, clampScore_le_100 _⟩⟩

/-- C7 counterexample: with a full budget of 60 and an account holding
no history flags, `revealHistoryFlag` at index 0 returns `null` (index
out of range), yet the budget drops from 60 to 59.25 — the claim's
"whenever it returns null the triage time budget is left unchanged"
fails. -/
theorem revealHistoryFlag_null_yet_deducts :
    (revealHistoryFlag ⟨60, 0, [], []⟩ (mkAccount "x" "x" .background .active []) 0).1
      = none ∧
    ((revealHistoryFlag ⟨60, 0, [], []⟩ (mkAccount "x" "x" .background .active []) 0).2).timeBudget
      = 237/4 ∧
    (237 : ℚ)/4 ≠ 60 := by
  refine ⟨?_, ?_, by norm_num⟩ <;>
    norm_num [revealHistoryFlag, applyTimeCost, TIME_COSTS, mkAccount]

/-- C7 (amended): `revealHistoryFlag` returns the requested flag when
the budget covers the 0.75 cost and the index is in range; it returns
null with the budget unchanged when the budget is insufficient; and it
returns null when the index is out of range, but in that case the cost
has already been deducted. -/
theorem revealHistoryFlag_behaviour (ts : TriageState) (account : Account)
    (flagIndex : ℕ) :
    (ts.timeBudget < 0.75 → revealHistoryFlag ts account flagIndex = (none, ts)) ∧
    (0.75 ≤ ts.timeBudget → account.historyFlags.length ≤ flagIndex →
      revealHistoryFlag ts account flagIndex
        = (none, { ts with timeBudget := ts.timeBudget - 0.75 })) ∧
    (0.75 ≤ ts.timeBudget → flagIndex < account.historyFlags.length →
      revealHistoryFlag ts account flagIndex
        = (some (account.historyFlags.getD flagIndex ""),
           { ts with timeBudget := ts.timeBudget - 0.75 })) := by
  unfold revealHistoryFlag applyTimeCost TIME_COSTS
  refine ⟨?_, ?_, ?_⟩
  · intro h
    rw [if_pos h]
  · intro h1 h2
    rw [if_neg (not_lt.mpr h1)]
    simp only [if_pos h2]
  · intro h1 h2
    rw [if_neg (not_lt.mpr h1)]
    simp only [if_neg (not_le.mpr h2)]

/-- C7 witness: concrete instances of all three branches of
`revealHistoryFlag_behaviour`. -/
theorem revealHistoryFlag_behaviour_witness :
    revealHistoryFlag ⟨0.5, 0, [], []⟩ (mkAccount "x" "x" .background .active []) 0
      = (none, ⟨0.5, 0, [], []⟩) ∧
    (revealHistoryFlag ⟨60, 0, [], []⟩
        (mkAccount "y" "y" .background .active ["past_political_spam"]) 0).1
      = some "past_political_spam" := by
  constructor
  · exact (revealHistoryFlag_behaviour ⟨0.5, 0, [], []⟩ _ 0).1 (by norm_num)
  · rw [(revealHistoryFlag_behaviour ⟨60, 0, [], []⟩
      (mkAccount "y" "y" .background .active ["past_political_spam"]) 0).2.2
      (by norm_num) (by simp [mkAccount])]
    rfl

theorem timeCost_pos (k : TriageCostKind) : 0 < TIME_COSTS k := by
  cases k <;> norm_num [TIME_COSTS]

theorem applyTimeCost_budget (ts : TriageState) (k : TriageCostKind) :
    ((applyTimeCost ts k).2.timeBudget = ts.timeBudget ∨
      (applyTimeCost ts k).2.timeBudget = ts.timeBudget - TIME_COSTS k) ∧
    (applyTimeCost ts k).2.timeBudget ≤ ts.timeBudget ∧
    (0 ≤ ts.timeBudget → 0 ≤ (applyTimeCost ts k).2.timeBudget) := by
  have hk := timeCost_pos k
  simp only [applyTimeCost]
  split_ifs with h
  · exact ⟨Or.inl rfl, le_rfl, id⟩
  · push_neg at h
    dsimp only
    exact ⟨Or.inr rfl, by linarith, fun _ => by linarith⟩

theorem revealHistoryFlag_state (ts : TriageState) (acc : Account) (i : ℕ) :
    (revealHistoryFlag ts acc i).2 = (applyTimeCost ts .revealHistoryFlag).2 := by
  unfold revealHistoryFlag
  rcases h : applyTimeCost ts .revealHistoryFlag with ⟨b, ts2⟩
  cases b
  · rfl
  · dsimp only
    split <;> rfl

theorem updateProfileField_state (ts : TriageState) (acc : Account)
    (f : ProfileField) (v : String) :
    (updateProfileField ts acc f v).2.1 = (applyTimeCost ts .changeProfileField).2 := by
  unfold updateProfileField
  rcases h : applyTimeCost ts .changeProfileField with ⟨b, ts2⟩
  cases b <;> rfl

theorem togglePersonaTag_state (ts : TriageState) (acc : Account) (tag : PersonaTag) :
    (togglePersonaTag ts acc tag).2.1 = (applyTimeCost ts .togglePersonaTag).2 := by
  unfold togglePersonaTag
  rcases h : applyTimeCost ts .togglePersonaTag with ⟨b, ts2⟩
  cases b <;> rfl

theorem changeRiskClass_state (ts : TriageState) (acc : Account) (rc : AccountRiskClass) :
    (changeRiskClass ts acc rc).2.1 = (applyTimeCost ts .changeRiskClass).2 := by
  unfold changeRiskClass
  rcases h : applyTimeCost ts .changeRiskClass with ⟨b, ts2⟩
  cases b <;> rfl

theorem makeTriageDecision_budget (st : GameState) (ts : TriageState) (aid : String)
    (act : TriageAction) (fl : List String) (t : ℚ) :
    (makeTriageDecision st ts aid act fl t).2.2.timeBudget
      = (applyTimeCost ts .makeTriageDecision).2.timeBudget := by
  unfold makeTriageDecision
  rcases h : applyTimeCost ts .makeTriageDecision with ⟨b, ts2⟩
  cases b
  · rfl
  · dsimp only
    cases lookupAccount st aid <;> rfl

/-- Per-operation budget facts: each triage operation leaves the budget
unchanged or debits exactly one fixed cost, never increases it, and
keeps it nonnegative. -/
theorem triageStep_budget (p : GameState × TriageState) (op : TriageOp) :
    ((triageStep p op).2.timeBudget = p.2.timeBudget ∨
      ∃ k, (triageStep p op).2.timeBudget = p.2.timeBudget - TIME_COSTS k) ∧
    (triageStep p op).2.timeBudget ≤ p.2.timeBudget ∧
    (0 ≤ p.2.timeBudget → 0 ≤ (triageStep p op).2.timeBudget) := by
  cases op with
  | openDetail =>
    have h := applyTimeCost_budget p.2 .openAccountDetail
    exact ⟨h.1.imp id (fun hh => ⟨_, hh⟩), h.2.1, h.2.2⟩
  | reveal acc i =>
    have e : (triageStep p (TriageOp.reveal acc i)).2
        = (applyTimeCost p.2 .revealHistoryFlag).2 := revealHistoryFlag_state p.2 acc i
    rw [e]
    have h := applyTimeCost_budget p.2 .revealHistoryFlag
    exact ⟨h.1.imp id (fun hh => ⟨_, hh⟩), h.2.1, h.2.2⟩
  | editProfile acc f v =>
    have e : (triageStep p (TriageOp.editProfile acc f v)).2
        = (applyTimeCost p.2 .changeProfileField).2 := updateProfileField_state p.2 acc f v
    rw [e]
    have h := applyTimeCost_budget p.2 .changeProfileField
    exact ⟨h.1.imp id (fun hh => ⟨_, hh⟩), h.2.1, h.2.2⟩
  | toggleTag acc tag =>
    have e : (triageStep p (TriageOp.toggleTag acc tag)).2
        = (applyTimeCost p.2 .togglePersonaTag).2 := togglePersonaTag_state p.2 acc tag
    rw [e]
    have h := applyTimeCost_budget p.2 .togglePersonaTag
    exact ⟨h.1.imp id (fun hh => ⟨_, hh⟩), h.2.1, h.2.2⟩
  | setRisk acc rc =>
    have e : (triageStep p (TriageOp.setRisk acc rc)).2
        = (applyTimeCost p.2 .changeRiskClass).2 := changeRiskClass_state p.2 acc rc
    rw [e]
    have h := applyTimeCost_budget p.2 .changeRiskClass
    exact ⟨h.1.imp id (fun hh => ⟨_, hh⟩), h.2.1, h.2.2⟩
  | makeDecision aid act fl t =>
    have e : (triageStep p (TriageOp.makeDecision aid act fl t)).2.timeBudget
        = (applyTimeCost p.2 .makeTriageDecision).2.timeBudget :=
      makeTriageDecision_budget p.1 p.2 aid act fl t
    rw [e]
    have h := applyTimeCost_budget p.2 .makeTriageDecision
    exact ⟨h.1.imp id (fun hh => ⟨_, hh⟩), h.2.1, h.2.2⟩
  | skip =>
    exact ⟨Or.inl rfl, le_rfl, id⟩

/-- C8: the triage time budget starts at 60 simulated minutes
(`initChapter2`), every operation either leaves it unchanged or debits
exactly one of the fixed `TIME_COSTS` (an operation whose cost exceeds
the remaining budget is refused with no deduction), so along any
sequence of triage operations the budget is monotonically non-increasing
and never negative. -/
theorem triage_budget_invariant (st : GameState) (ts : TriageState)
    (h0 : 0 ≤ ts.timeBudget) :
    (∀ (st2 : GameState) (shuffle : List Account → List Account),
        ((initChapter2 st2 shuffle).2).timeBudget = 60) ∧
    (∀ op, (triageStep (st, ts) op).2.timeBudget ≤ ts.timeBudget ∧
      ((triageStep (st, ts) op).2.timeBudget = ts.timeBudget ∨
        ∃ k, (triageStep (st, ts) op).2.timeBudget = ts.timeBudget - TIME_COSTS k)) ∧
    (∀ ops, 0 ≤ (triageRun (st, ts) ops).2.timeBudget ∧
      (triageRun (st, ts) ops).2.timeBudget ≤ ts.timeBudget) := by
  refine ⟨fun st2 shuffle => rfl,
    fun op => ⟨(triageStep_budget (st, ts) op).2.1, (triageStep_budget (st, ts) op).1⟩,
    fun ops => ?_⟩
  have h := foldl_preserves triageStep
    (fun p => 0 ≤ p.2.timeBudget ∧ p.2.timeBudget ≤ ts.timeBudget)
    (fun b a hb => ⟨(triageStep_budget b a).2.2 hb.1,
      le_trans (triageStep_budget b a).2.1 hb.2⟩)
    ops (st, ts) ⟨h0, le_rfl⟩
  exact h

/-- C8 witness: a concrete run of four triage operations from the
initial 60-minute budget stays within [0, 60]. -/
theorem triage_budget_invariant_witness :
    0 ≤ (triageRun (emptyState, ⟨60, 0, [], []⟩)
      [TriageOp.openDetail, TriageOp.reveal (mkAccount "x" "x" .background .active []) 0,
       TriageOp.makeDecision "x" .keep [] 1, TriageOp.skip]).2.timeBudget ∧
    (triageRun (emptyState, ⟨60, 0, [], []⟩)
      [TriageOp.openDetail, TriageOp.reveal (mkAccount "x" "x" .background .active []) 0,
       TriageOp.makeDecision "x" .keep [] 1, TriageOp.skip]).2.timeBudget ≤ 60 :=
  (triage_budget_invariant emptyState ⟨60, 0, [], []⟩ (by norm_num)).2.2
    [TriageOp.openDetail, TriageOp.reveal (mkAccount "x" "x" .background .active []) 0,
     TriageOp.makeDecision "x" .keep [] 1, TriageOp.skip]

theorem hasAccountEngagedTweet_push (st : GameState) (a t : String)
    (ty : EngagementActionType) (tone : Option ReplyTone) (m : ℚ) :
    hasAccountEngagedTweet
      { st with engagementQueue := st.engagementQueue ++ [⟨a, t, ty, tone, m⟩] }
      a t ty = true := by
  unfold hasAccountEngagedTweet
  simp

theorem scheduleEngagement_success_state (st : GameState) (a t : String)
    (ty : EngagementActionType) (m : ℚ) (tone : Option ReplyTone) :
    (scheduleEngagement st a t ty m tone).1 = true →
    hasAccountEngagedTweet st a t ty = false ∧
    (scheduleEngagement st a t ty m tone).2
      = { st with engagementQueue := st.engagementQueue ++ [⟨a, t, ty, tone, m⟩] } := by
  intro h
  simp only [scheduleEngagement] at h ⊢
  split_ifs at h ⊢ with h1 h2
  refine ⟨by simpa using h1, rfl⟩

/-- C2: at most one successful schedule ever occurs per
(account, content, action-type) triple: `scheduleEngagement` returns
false and mutates nothing when the triple already appears in the
executed log or the pending queue, and whenever a call succeeds (returns
true, growing the queue by one), an immediately repeated call with
identical arguments returns false and leaves the state unchanged. -/
theorem scheduleEngagement_at_most_once (st : GameState) (accountId tweetId : String)
    (type : EngagementActionType) (m : ℚ) (tone : Option ReplyTone) :
    (hasAccountEngagedTweet st accountId tweetId type = true →
      scheduleEngagement st accountId tweetId type m tone = (false, st)) ∧
    ((scheduleEngagement st accountId tweetId type m tone).1 = true →
      (scheduleEngagement st accountId tweetId type m tone).2.engagementQueue.length
        = st.engagementQueue.length + 1 ∧
      scheduleEngagement (scheduleEngagement st accountId tweetId type m tone).2
          accountId tweetId type m tone
        = (false, (scheduleEngagement st accountId tweetId type m tone).2)) := by
  constructor
  · intro h
    unfold scheduleEngagement
    simp [h]
  · intro h
    obtain ⟨hfalse, hstate⟩ :=
      scheduleEngagement_success_state st accountId tweetId type m tone h
    refine ⟨by rw [hstate]; simp, ?_⟩
    rw [hstate]
    have hengaged := hasAccountEngagedTweet_push st accountId tweetId type tone m
    unfold scheduleEngagement
    simp [hengaged]

/-- C2 witness: on a concrete state with an empty queue, the first
schedule of ("a1","t1",like) succeeds and grows the queue by one, and
the identical second call fails leaving the state unchanged. -/
theorem scheduleEngagement_at_most_once_witness :
    (scheduleEngagement oneAccountState "a1" "t1" .like 1 none).1 = true ∧
    (scheduleEngagement oneAccountState "a1" "t1" .like 1 none).2.engagementQueue.length
      = oneAccountState.engagementQueue.length + 1 ∧
    scheduleEngagement (scheduleEngagement oneAccountState "a1" "t1" .like 1 none).2
        "a1" "t1" .like 1 none
      = (false, (scheduleEngagement oneAccountState "a1" "t1" .like 1 none).2) := by
  have h1 : (scheduleEngagement oneAccountState "a1" "t1" EngagementActionType.like 1 none).1
      = true := by
    norm_num [scheduleEngagement, hasAccountEngagedTweet, oneAccountState, emptyState,
      MAX_ACTIONS_PER_ACCOUNT_PER_HOUR]
  have h2 := (scheduleEngagement_at_most_once oneAccountState "a1" "t1" .like 1 none).2 h1
  exact ⟨h1, h2.1, h2.2⟩

theorem clamp_bounds (x : ℚ) : 0 ≤ max 0 (min 100 x) ∧ max 0 (min 100 x) ≤ 100 :=
  ⟨le_max_left 0 _, max_le (by norm_num) (min_le_left _ _)⟩

theorem execScheduled_meter (minute : ℤ) (rs : AlgorithmRuleSet)
    (p : GameState × List String) (sched : ScheduledEngagement) :
    (execScheduled minute rs p sched).1.suspicionMeter = p.1.suspicionMeter ∨
    ∃ d, (execScheduled minute rs p sched).1.suspicionMeter = max 0 (min 100 d) := by
  simp only [execScheduled]
  split
  · exact Or.inl rfl
  · exact Or.inl rfl
  · split_ifs
    · exact Or.inl rfl
    · exact Or.inr ⟨_, rfl⟩

theorem processEngagementsForMinute_meter (st : GameState) (m : ℤ)
    (rs : AlgorithmRuleSet)
    (h : 0 ≤ st.suspicionMeter ∧ st.suspicionMeter ≤ 100) :
    0 ≤ (processEngagementsForMinute st m rs).state.suspicionMeter ∧
      (processEngagementsForMinute st m rs).state.suspicionMeter ≤ 100 := by
  unfold processEngagementsForMinute
  exact foldl_preserves (execScheduled m rs)
    (fun q => 0 ≤ q.1.suspicionMeter ∧ q.1.suspicionMeter ≤ 100)
    (fun q a hq => by
      rcases execScheduled_meter m rs q a with he | ⟨d, he⟩
      · rw [he]; exact hq
      · rw [he]; exact clamp_bounds d)
    _ _ h

theorem minuteStep_meter (rs : AlgorithmRuleSet) (q : GameState × List String × ℕ)
    (m : ℤ) (h : 0 ≤ q.1.suspicionMeter ∧ q.1.suspicionMeter ≤ 100) :
    0 ≤ (minuteStep rs q m).1.suspicionMeter ∧ (minuteStep rs q m).1.suspicionMeter ≤ 100 :=
  processEngagementsForMinute_meter q.1 m rs h

theorem applySuspicionPenalties_meter (st : GameState) (level : SuspicionLevel)
    (pick : ℕ) :
    (applySuspicionPenalties st level pick).1.suspicionMeter = st.suspicionMeter := by
  cases level with
  | critical => unfold applySuspicionPenalties; dsimp only; split_ifs <;> rfl
  | elevated => unfold applySuspicionPenalties; dsimp only; split_ifs <;> rfl
  | warning => rfl
  | none => rfl

theorem thresholdStage_meter (st : GameState) (c : Bool) (pick : ℕ) :
    (thresholdStage st c pick).1.suspicionMeter = st.suspicionMeter := by
  simp only [thresholdStage]
  split_ifs <;>
    simp [applySuspicionPenalties_meter, addSystemNotice]

theorem decaySuspicion_bounds (st : GameState) (d : ℚ) (hd : 0 ≤ d)
    (h : 0 ≤ st.suspicionMeter ∧ st.suspicionMeter ≤ 100) :
    0 ≤ (decaySuspicion st d).suspicionMeter ∧ (decaySuspicion st d).suspicionMeter ≤ 100 := by
  unfold decaySuspicion
  dsimp only
  have h05 : 0 ≤ d * (0.5 : ℚ) := by positivity
  exact ⟨le_max_left 0 _, max_le (by norm_num) (by linarith [h.2])⟩

theorem updateTweetMetrics_meter (st : GameState) (d : ℚ) :
    (updateTweetMetrics st d).suspicionMeter = st.suspicionMeter := rfl

theorem updateEngagementSystem_meter (st : GameState) (deltaMs : ℚ)
    (rsArg : Option AlgorithmRuleSet) (pick : ℕ) (hd : 0 ≤ deltaMs)
    (h : 0 ≤ st.suspicionMeter ∧ st.suspicionMeter ≤ 100) :
    0 ≤ (updateEngagementSystem st deltaMs rsArg pick).state.suspicionMeter ∧
      (updateEngagementSystem st deltaMs rsArg pick).state.suspicionMeter ≤ 100 := by
  have hδ : 0 ≤ deltaMs * REAL_MS_TO_GAME_MINUTES :=
    mul_nonneg hd (by norm_num [REAL_MS_TO_GAME_MINUTES])
  simp only [updateEngagementSystem]
  rw [thresholdStage_meter]
  refine decaySuspicion_bounds _ _ hδ ?_
  rw [updateTweetMetrics_meter]
  exact foldl_preserves (minuteStep _)
    (fun q => 0 ≤ q.1.suspicionMeter ∧ q.1.suspicionMeter ≤ 100)
    (fun q a hq => minuteStep_meter _ q a hq)
    _ _ h

/-- C1: starting from `initEngagementSystem` (which zeroes the meter),
any sequence of `updateEngagementSystem` calls with nonnegative
real-time deltas keeps the detection (suspicion) meter inside [0, 100]:
every per-action meter update clamps into [0, 100] and the per-minute
linear decay floors at 0 (and cannot raise the meter when time moves
forward). -/
theorem suspicion_meter_in_range (st : GameState) (inputs : List AdvanceInput)
    (h : ∀ inp ∈ inputs, 0 ≤ inp.deltaMs) :
    0 ≤ (runEngagement (initEngagementSystem st) inputs).suspicionMeter ∧
      (runEngagement (initEngagementSystem st) inputs).suspicionMeter ≤ 100 := by
  unfold runEngagement
  have main : ∀ (l : List AdvanceInput) (s : GameState),
      (∀ inp ∈ l, 0 ≤ inp.deltaMs) →
      (0 ≤ s.suspicionMeter ∧ s.suspicionMeter ≤ 100) →
      0 ≤ (l.foldl (fun s inp =>
            (updateEngagementSystem s inp.deltaMs inp.ruleSet inp.pick).state) s).suspicionMeter ∧
        (l.foldl (fun s inp =>
            (updateEngagementSystem s inp.deltaMs inp.ruleSet inp.pick).state) s).suspicionMeter ≤ 100 := by
    intro l
    induction l with
    | nil => intro s _ hs; exact hs
    | cons a l ih =>
      intro s hl hs
      exact ih _ (fun i hi => hl i (List.mem_cons_of_mem a hi))
        (updateEngagementSystem_meter s a.deltaMs a.ruleSet a.pick
          (hl a (List.mem_cons_self a l)) hs)
  exact main inputs _ h ⟨le_refl 0, by simp [initEngagementSystem]⟩

/-- C1 witness: a concrete two-advance run (deltas 5000 ms and 10000 ms)
from the initialized two-frontline population keeps the meter in
[0, 100]. -/
theorem suspicion_meter_in_range_witness :
    0 ≤ (runEngagement (initEngagementSystem twoFrontlineState)
          [⟨5000, none, 0⟩, ⟨10000, none, 1⟩]).suspicionMeter ∧
      (runEngagement (initEngagementSystem twoFrontlineState)
          [⟨5000, none, 0⟩, ⟨10000, none, 1⟩]).suspicionMeter ≤ 100 :=
  suspicion_meter_in_range twoFrontlineState [⟨5000, none, 0⟩, ⟨10000, none, 1⟩]
    (by
      intro inp hi
      simp only [List.mem_cons, List.mem_singleton] at hi
      rcases hi with h1 | h1 | h1
      · rw [h1]; norm_num
      · rw [h1]; norm_num
      · cases h1)

theorem execScheduled_accounts (m : ℤ) (rs : AlgorithmRuleSet)
    (p : GameState × List String) (sched : ScheduledEngagement) :
    (execScheduled m rs p sched).1.accounts = p.1.accounts := by
  simp only [execScheduled]
  split
  · rfl
  · rfl
  · split_ifs
    · rfl
    · rfl

theorem processEngagementsForMinute_accounts (st : GameState) (m : ℤ)
    (rs : AlgorithmRuleSet) :
    (processEngagementsForMinute st m rs).state.accounts = st.accounts := by
  simp only [processEngagementsForMinute]
  exact foldl_preserves (execScheduled m rs) (fun q => q.1.accounts = st.accounts)
    (fun q a hq => (execScheduled_accounts m rs q a).trans hq) _ _ rfl

theorem minuteStep_accounts (rs : AlgorithmRuleSet) (q : GameState × List String × ℕ)
    (m : ℤ) : (minuteStep rs q m).1.accounts = q.1.accounts :=
  processEngagementsForMinute_accounts q.1 m rs

theorem addSystemNotice_accounts (st : GameState) (l : List String) :
    (addSystemNotice st l).accounts = st.accounts := rfl

theorem applySuspicionPenalties_accounts (st : GameState) (level : SuspicionLevel)
    (pick : ℕ) :
    (applySuspicionPenalties st level pick).1.accounts = st.accounts ∨
    ∃ j a, (applySuspicionPenalties st level pick).1.accounts = st.accounts.set j a := by
  cases level with
  | critical =>
    simp only [applySuspicionPenalties]
    split_ifs
    · exact Or.inl rfl
    · exact Or.inr ⟨_, _, rfl⟩
  | elevated =>
    simp only [applySuspicionPenalties]
    split_ifs
    · exact Or.inl rfl
    · exact Or.inr ⟨_, _, rfl⟩
  | warning => exact Or.inl rfl
  | none => exact Or.inl rfl

theorem thresholdStage_accounts (st : GameState) (c : Bool) (pick : ℕ) :
    (thresholdStage st c pick).1.accounts = st.accounts ∨
    ∃ j a, (thresholdStage st c pick).1.accounts = st.accounts.set j a := by
  simp only [thresholdStage]
  split_ifs
  · exact applySuspicionPenalties_accounts st _ pick
  · exact Or.inl rfl
  · exact Or.inl rfl

theorem thresholdStage_accounts_of (st base : GameState) (c : Bool) (pick : ℕ)
    (h : st.accounts = base.accounts) :
    (thresholdStage st c pick).1.accounts = base.accounts ∨
    ∃ j a, (thresholdStage st c pick).1.accounts = base.accounts.set j a := by
  rcases thresholdStage_accounts st c pick with he | ⟨j, a, he⟩
  · exact Or.inl (he.trans h)
  · rw [h] at he
    exact Or.inr ⟨j, a, he⟩

theorem updateEngagementSystem_accounts (st : GameState) (deltaMs : ℚ)
    (rsArg : Option AlgorithmRuleSet) (pick : ℕ) :
    (updateEngagementSystem st deltaMs rsArg pick).state.accounts = st.accounts ∨
    ∃ j a, (updateEngagementSystem st deltaMs rsArg pick).state.accounts
      = st.accounts.set j a := by
  simp only [updateEngagementSystem]
  refine thresholdStage_accounts_of _ st _ pick ?_
  exact foldl_preserves (minuteStep _) (fun q => q.1.accounts = st.accounts)
    (fun q a hq => (minuteStep_accounts _ q a).trans hq) _ _ rfl

theorem countP_zip_self {α : Type} (P : α × α → Bool) (hP : ∀ x, P (x, x) = false) :
    ∀ l : List α, ((l.zip l).countP P) = 0 := by
  intro l
  induction l with
  | nil => rfl
  | cons x t ih => simp [List.countP_cons, hP, ih]

theorem countP_zip_set_le {α : Type} (P : α × α → Bool) (hP : ∀ x, P (x, x) = false) :
    ∀ (l : List α) (j : ℕ) (a : α), ((l.zip (l.set j a)).countP P) ≤ 1 := by
  intro l
  induction l with
  | nil => intro j a; simp
  | cons x t ih =>
    intro j a
    cases j with
    | zero =>
      simp only [List.set, List.zip_cons_cons, List.countP_cons, countP_zip_self P hP]
      split_ifs <;> simp
    | succ j =>
      simp only [List.set, List.zip_cons_cons, List.countP_cons, hP]
      simpa using ih j a

theorem setQueue_eta (st : GameState) (h : st.engagementQueue = []) :
    ({ st with engagementQueue := [] } : GameState) = st := by
  cases st
  simp_all

theorem processEngagementsForMinute_emptyQueue (st : GameState) (m : ℤ)
    (rs : AlgorithmRuleSet) (h : st.engagementQueue = []) :
    processEngagementsForMinute st m rs = ⟨st, 0, []⟩ := by
  simp only [processEngagementsForMinute, h]
  simp [setQueue_eta st h, MAX_ACTIONS_PER_MINUTE]

theorem minuteStep_emptyQueue (rs : AlgorithmRuleSet) (st : GameState)
    (n : List String) (k : ℕ) (m : ℤ) (h : st.engagementQueue = []) :
    minuteStep rs (st, n, k) m = (st, n, k) := by
  simp [minuteStep, processEngagementsForMinute_emptyQueue st m rs h]

theorem foldl_minuteStep_emptyQueue (rs : AlgorithmRuleSet) (st : GameState)
    (n : List String) (k : ℕ) (l : List ℤ) (h : st.engagementQueue = []) :
    List.foldl (minuteStep rs) (st, n, k) l = (st, n, k) := by
  induction l with
  | nil => rfl
  | cons m t ih => rw [List.foldl_cons, minuteStep_emptyQueue rs st n k m h, ih]

theorem updateTweetMetrics_noTweets (st : GameState) (d : ℚ) (h : st.tweets = []) :
    updateTweetMetrics st d = st := by
  cases st
  simp_all [updateTweetMetrics]

set_option maxHeartbeats 2000000 in
/-- C4 counterexample: from a state with the detection meter pinned at
100 and two active frontline accounts, a single advance whose delta
(10000 ms = 2 in-game minutes) crosses two whole-minute boundaries while
the meter stays above the critical threshold (it decays only to 99)
bans exactly one frontline account, not one per boundary: the threshold
bands are evaluated once per advance call, not once per crossed
boundary, refuting the claim's "evaluated once at that boundary" for
every boundary. -/
theorem advance_two_boundaries_one_ban :
    (updateEngagementSystem twoFrontlineState 10000 none 0).state.inGameMinutes = 2 ∧
    (updateEngagementSystem twoFrontlineState 10000 none 0).state.suspicionMeter = 99 ∧
    ((updateEngagementSystem twoFrontlineState 10000 none 0).state.accounts.countP
      (fun a => decide (a.status = .banned))) = 1 ∧
    (1 : ℕ) ≠ 2 := by
  refine ⟨?_, ?_, ?_, by norm_num⟩ <;>
  · simp only [updateEngagementSystem]
    rw [foldl_minuteStep_emptyQueue, updateTweetMetrics_noTweets]
    · norm_num [thresholdStage, decaySuspicion, checkSuspicionThresholds,
        applySuspicionPenalties, addSystemNotice, twoFrontlineState, emptyState, mkAccount,
        baselineRS, postChangeRS, REAL_MS_TO_GAME_MINUTES, suspicionThresholdWarning,
        suspicionThresholdElevated, suspicionThresholdCritical, statusText,
        List.countP_cons, List.enum, List.enumFrom]
      try rw [if_neg (show ¬(SuspicionLevel.critical = SuspicionLevel.none) by decide)]
      try norm_num [List.countP_cons]
      try decide
    · rfl
    · rfl

/-- C4 (amended): within a single `advance` call the three ordered
threshold bands are evaluated once — at the end of the call, after
decay, and only when at least one whole-minute boundary was crossed —
and only the highest qualifying band's penalty is applied, so at most
one account's status changes in the whole call, regardless of how many
minute boundaries the delta crossed (never two in the same call, hence
never two in the same boundary). -/
theorem advance_at_most_one_penalty (st : GameState) (deltaMs : ℚ)
    (rsArg : Option AlgorithmRuleSet) (pick : ℕ) :
    ((st.accounts.zip (updateEngagementSystem st deltaMs rsArg pick).state.accounts).countP
      (fun q => decide (q.1.status ≠ q.2.status))) ≤ 1 := by
  rcases updateEngagementSystem_accounts st deltaMs rsArg pick with he | ⟨j, a, he⟩
  · rw [he, countP_zip_self _ (fun x => by simp)]
    norm_num
  · rw [he]
    exact countP_zip_set_le _ (fun x => by simp) _ j a

theorem chapter3Step_preserves (p : GameState × Chapter3State) (op : Chapter3Op)
    (h : p.2.ruleChangeTriggered = true ∧ p.2.currentPhase = .post_change) :
    (chapter3Step p op).2.ruleChangeTriggered = true ∧
    (chapter3Step p op).2.currentPhase = .post_change := by
  cases op with
  | tick deltaMs pick =>
    have hs : shouldTriggerRuleChange p.1 p.2 = false := by
      simp [shouldTriggerRuleChange, h.1]
    simp only [chapter3Step, hs]
    simpa using h
  | countermeasure s =>
    simp only [chapter3Step, applyCountermeasure]
    split_ifs <;> exact h
  | capturePost => exact h

/-- C5: the adaptive phase's swap to the post-change rule set happens
exactly once per run and only once elapsed in-game minutes reach the
threshold (`RULE_CHANGE_MINUTE = 40`): `shouldTriggerRuleChange` holds
exactly when the threshold is reached and no swap has fired yet;
`applyRuleChange` is a no-op after the first swap (so a second swap can
never occur); a first swap sets the post-change phase; once swapped, no
sequence of chapter-3 operations ever reverts to the baseline rule set;
and a tick from an untriggered state past the threshold performs the
swap. -/
theorem ruleChange_exactly_once (st : GameState) (c3 : Chapter3State) :
    (∀ (st2 : GameState) (c2 : Chapter3State),
      shouldTriggerRuleChange st2 c2 = true ↔
        (RULE_CHANGE_MINUTE ≤ st2.inGameMinutes ∧ c2.ruleChangeTriggered = false)) ∧
    (c3.ruleChangeTriggered = true → applyRuleChange st c3 = (st, c3)) ∧
    (c3.ruleChangeTriggered = false →
      (applyRuleChange st c3).2.ruleChangeTriggered = true ∧
      (applyRuleChange st c3).2.currentPhase = .post_change) ∧
    (∀ ops, c3.ruleChangeTriggered = true → c3.currentPhase = .post_change →
      (chapter3Run (st, c3) ops).2.ruleChangeTriggered = true ∧
      (chapter3Run (st, c3) ops).2.currentPhase = .post_change) ∧
    (∀ (deltaMs : ℚ) (pick : ℕ),
      c3.ruleChangeTriggered = false → RULE_CHANGE_MINUTE ≤ st.inGameMinutes →
      (chapter3Step (st, c3) (.tick deltaMs pick)).2.ruleChangeTriggered = true ∧
      (chapter3Step (st, c3) (.tick deltaMs pick)).2.currentPhase = .post_change) := by
  have hiff : ∀ (st2 : GameState) (c2 : Chapter3State),
      shouldTriggerRuleChange st2 c2 = true ↔
        (RULE_CHANGE_MINUTE ≤ st2.inGameMinutes ∧ c2.ruleChangeTriggered = false) := by
    intro st2 c2
    simp [shouldTriggerRuleChange]
  have happly : c3.ruleChangeTriggered = false →
      (applyRuleChange st c3).2.ruleChangeTriggered = true ∧
      (applyRuleChange st c3).2.currentPhase = .post_change := by
    intro h
    unfold applyRuleChange
    rw [if_neg (by simp [h])]
    exact ⟨rfl, rfl⟩
  refine ⟨hiff, ?_, happly, ?_, ?_⟩
  · intro h
    unfold applyRuleChange
    rw [if_pos h]
  · intro ops h1 h2
    exact foldl_preserves chapter3Step
      (fun q => q.2.ruleChangeTriggered = true ∧ q.2.currentPhase = .post_change)
      (fun q op hq => chapter3Step_preserves q op hq) ops (st, c3) ⟨h1, h2⟩
  · intro deltaMs pick h1 h2
    have hs : shouldTriggerRuleChange st c3 = true := (hiff st c3).mpr ⟨h2, h1⟩
    simp only [chapter3Step, hs, if_pos]
    exact happly h1

/-- C5 witness: with elapsed time 50 (past the default threshold 40) and
a fresh chapter-3 state, a single tick performs the swap; from the
swapped state, a further tick plus a countermeasure never revert. -/
theorem ruleChange_exactly_once_witness :
    ((chapter3Step ({ emptyState with inGameMinutes := 50 }, createDefaultState)
        (.tick 1000 0)).2.ruleChangeTriggered = true ∧
      (chapter3Step ({ emptyState with inGameMinutes := 50 }, createDefaultState)
        (.tick 1000 0)).2.currentPhase = .post_change) ∧
    ((chapter3Run ({ emptyState with inGameMinutes := 50 },
          { createDefaultState with ruleChangeTriggered := true,
                                    currentPhase := .post_change })
        [.tick 1000 0, .countermeasure {}]).2.ruleChangeTriggered = true ∧
      (chapter3Run ({ emptyState with inGameMinutes := 50 },
          { createDefaultState with ruleChangeTriggered := true,
                                    currentPhase := .post_change })
        [.tick 1000 0, .countermeasure {}]).2.currentPhase = .post_change) :=
  ⟨(ruleChange_exactly_once { emptyState with inGameMinutes := 50 }
      createDefaultState).2.2.2.2 1000 0 rfl (by norm_num [RULE_CHANGE_MINUTE, emptyState]),
   (ruleChange_exactly_once { emptyState with inGameMinutes := 50 }
      { createDefaultState with ruleChangeTriggered := true,
                                currentPhase := .post_change }).2.2.2.1
      [.tick 1000 0, .countermeasure {}] rfl rfl⟩

theorem foldl_execScheduled_skip (m : ℤ) (rs : AlgorithmRuleSet) (st1 : GameState)
    (n : List String) :
    ∀ (acts : List ScheduledEngagement),
      (∀ e ∈ acts, lookupAccount st1 e.accountId = none ∨
        lookupTweet st1 e.tweetId = none) →
      List.foldl (execScheduled m rs) (st1, n) acts = (st1, n) := by
  intro acts
  induction acts with
  | nil => intro _; rfl
  | cons a tl ih =>
    intro h
    rw [List.foldl_cons]
    have hstep : execScheduled m rs (st1, n) a = (st1, n) := by
      rcases h a (List.mem_cons_self a tl) with ha | ha
      · simp [execScheduled, ha]
      · rcases hA : lookupAccount st1 a.accountId with _ | acc <;>
          simp [execScheduled, hA, ha]
    rw [hstep]
    exact ih (fun e he => h e (List.mem_cons_of_mem a he))

/-- C9 (amended): a reference to an account or content id not present in
state is handled without any exception, but silently and not entirely
state-free: a due pending action whose account or tweet id is unknown is
skipped with no notice and no state change beyond its removal from the
queue (it still counts toward `processedCount`), and a triage decision
naming an unknown account returns false without touching any account or
recording a decision, but its fixed time cost has already been
deducted. -/
theorem missing_refs_silent_noop (st : GameState) (m : ℤ) (rs : AlgorithmRuleSet)
    (ts : TriageState) (accountId : String) (act : TriageAction)
    (fl : List String) (t : ℚ) :
    ((∀ e ∈ st.engagementQueue.filter (fun e => decide (e.scheduledMinute = (m : ℚ))),
        lookupAccount st e.accountId = none ∨ lookupTweet st e.tweetId = none) →
      (st.engagementQueue.filter
        (fun e => decide (e.scheduledMinute = (m : ℚ)))).length ≤ MAX_ACTIONS_PER_MINUTE →
      processEngagementsForMinute st m rs =
        ⟨{ st with engagementQueue :=
            st.engagementQueue.filter (fun e => !decide (e.scheduledMinute = (m : ℚ))) },
          (st.engagementQueue.filter
            (fun e => decide (e.scheduledMinute = (m : ℚ)))).length,
          []⟩) ∧
    (TIME_COSTS .makeTriageDecision ≤ ts.timeBudget →
      lookupAccount st accountId = none →
      makeTriageDecision st ts accountId act fl t =
        (false, st,
          { ts with timeBudget := ts.timeBudget - TIME_COSTS .makeTriageDecision })) := by
  constructor
  · intro hall hlen
    simp only [processEngagementsForMinute]
    rw [if_neg (not_lt.mpr hlen), List.take_of_length_le hlen]
    rw [foldl_execScheduled_skip m rs
      { st with engagementQueue :=
          st.engagementQueue.filter (fun e => !decide (e.scheduledMinute = (m : ℚ))) }
      [] _ hall]
  · intro hbudget hnone
    simp only [makeTriageDecision, applyTimeCost]
    rw [if_neg (not_lt.mpr hbudget)]
    simp only [hnone]

/-- C9 witness: with one due action referencing the unknown account
"ghost" (and no triage budget shortage), the minute processor drops it
silently, and a triage decision for "ghost" fails after debiting its
cost. -/
theorem missing_refs_silent_noop_witness :
    processEngagementsForMinute ghostQueueState 1 baselineRS =
      ⟨{ ghostQueueState with engagementQueue := [] }, 1, []⟩ ∧
    makeTriageDecision ghostQueueState ⟨60, 0, [], []⟩ "ghost" .keep [] 0 =
      (false, ghostQueueState, ⟨60 - 0.5, 0, [], []⟩) := by
  have h := missing_refs_silent_noop ghostQueueState 1 baselineRS ⟨60, 0, [], []⟩
    "ghost" .keep [] 0
  constructor
  · have h1 := h.1 (by
      intro e he
      left
      norm_num [ghostQueueState, emptyState, lookupAccount])
      (by norm_num [ghostQueueState, emptyState, MAX_ACTIONS_PER_MINUTE])
    rw [h1]
    norm_num [ghostQueueState, emptyState]
  · have h2 := h.2 (by norm_num [TIME_COSTS]) (by norm_num [ghostQueueState, emptyState, lookupAccount])
    rw [h2]
    norm_num [TIME_COSTS]

/-- C9 counterexample: the claim requires a human-readable notice to
accompany every missing-id no-op and that nothing but the notice log
changes; but processing the minute in which an action referencing the
unknown account "ghost" is due yields no notice at all (while the
action is dequeued unexecuted and even counted as processed), and a
triage decision naming an unknown account changes the time budget from
60 to 59.5. -/
theorem missing_refs_no_notice :
    (processEngagementsForMinute ghostQueueState 1 baselineRS).notices = [] ∧
    (processEngagementsForMinute ghostQueueState 1 baselineRS).state.engagements = [] ∧
    (processEngagementsForMinute ghostQueueState 1 baselineRS).state.systemNotices = [] ∧
    (processEngagementsForMinute ghostQueueState 1 baselineRS).state.engagementQueue = [] ∧
    (processEngagementsForMinute ghostQueueState 1 baselineRS).processedCount = 1 ∧
    ((makeTriageDecision ghostQueueState ⟨60, 0, [], []⟩ "ghost" .keep [] 0).2.2).timeBudget
      = 119/2 ∧
    (119 : ℚ)/2 ≠ 60 := by
  refine ⟨?_, ?_, ?_, ?_, ?_, ?_, by norm_num⟩ <;>
    norm_num [processEngagementsForMinute, execScheduled, lookupAccount, lookupTweet,
      makeTriageDecision, applyTimeCost, TIME_COSTS, ghostQueueState, emptyState,
      baselineRS, MAX_ACTIONS_PER_MINUTE]

theorem lookupAccount_eq_of_accounts (st st' : GameState)
    (h : st.accounts = st'.accounts) (x : String) :
    lookupAccount st x = lookupAccount st' x := by
  unfold lookupAccount
  rw [h]

theorem find?_updateFirst {α : Type} (pr q : α → Bool) (f : α → α)
    (hf : ∀ t, pr (f t) = pr t) :
    ∀ l : List α, (List.find? pr (updateFirst q f l)).isSome
      = (List.find? pr l).isSome := by
  intro l
  induction l with
  | nil => rfl
  | cons x xs ih =>
    by_cases hq : q x
    · simp only [updateFirst, if_pos hq]
      by_cases hx : pr x
      · rw [List.find?_cons_of_pos _ (by rw [hf]; exact hx),
            List.find?_cons_of_pos _ hx]
        rfl
      · rw [List.find?_cons_of_neg _ (by rw [hf]; exact hx),
            List.find?_cons_of_neg _ hx]
    · simp only [updateFirst, if_neg hq]
      by_cases hx : pr x
      · rw [List.find?_cons_of_pos _ hx, List.find?_cons_of_pos _ hx]
      · rw [List.find?_cons_of_neg _ hx, List.find?_cons_of_neg _ hx]
        exact ih

theorem execScheduled_tweets_isSome (m : ℤ) (rs : AlgorithmRuleSet)
    (q : GameState × List String) (a : ScheduledEngagement) (x : String) :
    (lookupTweet (execScheduled m rs q a).1 x).isSome
      = (lookupTweet q.1 x).isSome := by
  simp only [execScheduled]
  split
  · rfl
  · rfl
  · split_ifs
    · rfl
    · simp only [lookupTweet, logEvent]
      refine find?_updateFirst _ _ _ ?_ q.1.tweets
      intro t
      rfl

theorem execScheduled_cases (m : ℤ) (rs : AlgorithmRuleSet)
    (q : GameState × List String) (a : ScheduledEngagement) :
    (execScheduled m rs q a).1.engagements = q.1.engagements ∨
    (∃ acc, lookupAccount q.1 a.accountId = some acc ∧ acc.status = .active ∧
      ∃ act, act.accountId = a.accountId ∧
        (execScheduled m rs q a).1.engagements = q.1.engagements ++ [act]) := by
  simp only [execScheduled]
  split
  · exact Or.inl rfl
  · exact Or.inl rfl
  · rename_i account tweet hA hT
    split_ifs with hs
    · exact Or.inl rfl
    · exact Or.inr ⟨account, hA, not_not.mp hs, ⟨_, rfl, rfl⟩⟩

theorem foldl_execScheduled_engagements (m : ℤ) (rs : AlgorithmRuleSet)
    (st0 : GameState) :
    ∀ (acts : List ScheduledEngagement) (q : GameState × List String),
      q.1.accounts = st0.accounts →
      (∀ e ∈ q.1.engagements, e ∈ st0.engagements ∨
        ∃ acc, lookupAccount st0 e.accountId = some acc ∧ acc.status = .active) →
      (∀ e ∈ (List.foldl (execScheduled m rs) q acts).1.engagements,
        e ∈ st0.engagements ∨
        ∃ acc, lookupAccount st0 e.accountId = some acc ∧ acc.status = .active) := by
  intro acts
  induction acts with
  | nil => intro q hacc heng; exact heng
  | cons a tl ih =>
    intro q hacc heng
    rw [List.foldl_cons]
    refine ih _ ((execScheduled_accounts m rs q a).trans hacc) ?_
    intro e he
    rcases execScheduled_cases m rs q a with hcase | ⟨acc, hA, hst, act, haid, hengs⟩
    · rw [hcase] at he; exact heng e he
    · rw [hengs] at he
      rcases List.mem_append.mp he with he | he
      · exact heng e he
      · rcases List.mem_singleton.mp he with rfl
        refine Or.inr ⟨acc, ?_, hst⟩
        rw [haid, ← lookupAccount_eq_of_accounts q.1 st0 hacc]
        exact hA

theorem execScheduled_notices_mono (m : ℤ) (rs : AlgorithmRuleSet)
    (q : GameState × List String) (a : ScheduledEngagement) (x : String)
    (hx : x ∈ q.2) : x ∈ (execScheduled m rs q a).2 := by
  simp only [execScheduled]
  split
  · exact hx
  · exact hx
  · split_ifs
    · exact List.mem_append.mpr (Or.inl hx)
    · exact hx

theorem foldl_execScheduled_notices_mono (m : ℤ) (rs : AlgorithmRuleSet) :
    ∀ (acts : List ScheduledEngagement) (q : GameState × List String) (x : String),
      x ∈ q.2 → x ∈ (List.foldl (execScheduled m rs) q acts).2 := by
  intro acts
  induction acts with
  | nil => intro q x hx; exact hx
  | cons a tl ih =>
    intro q x hx
    rw [List.foldl_cons]
    exact ih _ x (execScheduled_notices_mono m rs q a x hx)

theorem execScheduled_skip_notice (m : ℤ) (rs : AlgorithmRuleSet)
    (q : GameState × List String) (a : ScheduledEngagement) (acc : Account)
    (tw : SimTweet) (hA : lookupAccount q.1 a.accountId = some acc)
    (hT : lookupTweet q.1 a.tweetId = some tw) (hs : acc.status ≠ .active) :
    ("Action skipped: @" ++ acc.profile.handle ++ " is " ++ statusText acc.status)
      ∈ (execScheduled m rs q a).2 := by
  simp only [execScheduled, hA, hT]
  rw [if_pos hs]
  exact List.mem_append.mpr (Or.inr (List.mem_singleton.mpr rfl))

theorem foldl_execScheduled_skip_notice (m : ℤ) (rs : AlgorithmRuleSet)
    (st0 : GameState) :
    ∀ (acts : List ScheduledEngagement) (q : GameState × List String),
      q.1.accounts = st0.accounts →
      (∀ x, (lookupTweet q.1 x).isSome = (lookupTweet st0 x).isSome) →
      ∀ sched ∈ acts, ∀ acc tw,
        lookupAccount st0 sched.accountId = some acc →
        lookupTweet st0 sched.tweetId = some tw →
        acc.status ≠ .active →
        ("Action skipped: @" ++ acc.profile.handle ++ " is " ++ statusText acc.status)
          ∈ (List.foldl (execScheduled m rs) q acts).2 := by
  intro acts
  induction acts with
  | nil => intro q _ _ sched hs; cases hs
  | cons a tl ih =>
    intro q hacc htw sched hmem acc tw hA hT hst
    rw [List.foldl_cons]
    rcases List.mem_cons.mp hmem with rfl | hmem
    · have hA' : lookupAccount q.1 sched.accountId = some acc := by
        rw [lookupAccount_eq_of_accounts q.1 st0 hacc]
        exact hA
      have hTsome : (lookupTweet q.1 sched.tweetId).isSome = true := by
        rw [htw sched.tweetId, hT]
        rfl
      rcases Option.isSome_iff_exists.mp hTsome with ⟨tw', hT'⟩
      exact foldl_execScheduled_notices_mono m rs tl _ _
        (execScheduled_skip_notice m rs q sched acc tw' hA' hT' hst)
    · exact ih _ ((execScheduled_accounts m rs q a).trans hacc)
        (fun x => (execScheduled_tweets_isSome m rs q a x).trans (htw x))
        sched hmem acc tw hA hT hst

/-- C10 counterexample: after a triage decision transitions account "a1"
to discarded, a schedule request naming it still succeeds
(`scheduleEngagement` returns true) — the scheduler checks duplicates
and pacing but never the account's status, refuting "no subsequent
schedule request naming it succeeds". -/
theorem inactive_account_schedulable :
    ((makeTriageDecision oneAccountState ⟨60, 0, [], []⟩ "a1" .discard [] 0).2.1.accounts.map
      (fun a => a.status)) = [.discarded] ∧
    (scheduleEngagement
      (makeTriageDecision oneAccountState ⟨60, 0, [], []⟩ "a1" .discard [] 0).2.1
      "a1" "t1" .like 5 none).1 = true := by
  constructor <;>
    norm_num [makeTriageDecision, applyTimeCost, TIME_COSTS, lookupAccount, updateFirst,
      scheduleEngagement, hasAccountEngagedTweet, oneAccountState, emptyState, mkAccount,
      triageStatusOf, logEvent, MAX_ACTIONS_PER_ACCOUNT_PER_HOUR]

/-- C10 (amended): once an account's status is no longer active (banned,
discarded, parked or flagged), it never executes: when a minute is
processed, the account list is untouched, every action in the executed
log either predates the call or was performed by an account whose status
was active at its execution minute, and every due pending action of a
non-active account (whose tweet id resolves) is dropped with the
"Action skipped" notice; `scheduleEngagement` itself, however, does not
consult account status, so schedule requests naming an inactive account
can still return true. -/
theorem inactive_never_executes (st : GameState) (m : ℤ) (rs : AlgorithmRuleSet) :
    (processEngagementsForMinute st m rs).state.accounts = st.accounts ∧
    (∀ e ∈ (processEngagementsForMinute st m rs).state.engagements,
      e ∈ st.engagements ∨
      ∃ acc, lookupAccount st e.accountId = some acc ∧ acc.status = .active) ∧
    (∀ sched ∈ (st.engagementQueue.filter
        (fun e => decide (e.scheduledMinute = (m : ℚ)))).take MAX_ACTIONS_PER_MINUTE,
      ∀ acc tw, lookupAccount st sched.accountId = some acc →
        lookupTweet st sched.tweetId = some tw →
        acc.status ≠ .active →
        ("Action skipped: @" ++ acc.profile.handle ++ " is " ++ statusText acc.status)
          ∈ (processEngagementsForMinute st m rs).notices) := by
  refine ⟨processEngagementsForMinute_accounts st m rs, ?_, ?_⟩
  · simp only [processEngagementsForMinute]
    exact foldl_execScheduled_engagements m rs st _ _ rfl (fun e he => Or.inl he)
  · simp only [processEngagementsForMinute]
    intro sched hmem acc tw hA hT hst
    exact foldl_execScheduled_skip_notice m rs st _ _ rfl (fun x => rfl)
      sched hmem acc tw hA hT hst

/-- C10 witness: with a banned account "a1" whose like on "t1" is due at
minute 1, processing that minute leaves the skip notice in the result
and executes nothing. -/
theorem inactive_never_executes_witness :
    ("Action skipped: @"
        ++ (mkAccount "a1" "alpha" .background .banned []).profile.handle
        ++ " is " ++ statusText AccountStatus.banned)
      ∈ (processEngagementsForMinute bannedQueueState 1 baselineRS).notices ∧
    (processEngagementsForMinute bannedQueueState 1 baselineRS).state.engagements = [] := by
  constructor
  · have hmem : (⟨"a1", "t1", .like, none, (1 : ℚ)⟩ : ScheduledEngagement) ∈
        (bannedQueueState.engagementQueue.filter
          (fun e => decide (e.scheduledMinute = ((1 : ℤ) : ℚ)))).take MAX_ACTIONS_PER_MINUTE := by
      norm_num [bannedQueueState, emptyState, MAX_ACTIONS_PER_MINUTE]
    have hA : lookupAccount bannedQueueState "a1"
        = some (mkAccount "a1" "alpha" .background .banned []) := by
      norm_num [lookupAccount, bannedQueueState, emptyState]
      intro h
      exact absurd rfl h
    have hT : lookupTweet bannedQueueState "t1" = some (mkTweet "t1") := by
      norm_num [lookupTweet, bannedQueueState, emptyState]
      intro h
      exact absurd rfl h
    exact (inactive_never_executes bannedQueueState 1 baselineRS).2.2
      ⟨"a1", "t1", .like, none, 1⟩ hmem _ _ hA hT (by decide)
  · norm_num [processEngagementsForMinute, execScheduled, lookupAccount, lookupTweet,
      bannedQueueState, emptyState, mkAccount, mkTweet, baselineRS,
      MAX_ACTIONS_PER_MINUTE, statusText]
    try rw [if_neg (show ¬(AccountStatus.banned = AccountStatus.active) by decide)]
    try norm_num [bannedQueueState, emptyState]

end SimGame
